import Mathlib

/-!
# The rexray storage-driver dispatcher

A shallow embedding of `rexray.go` (package `rexray`): the package-level
error values, `init`, the four fan-out operations and the six
single-driver-required operations.

Conventions of the embedding.

* A Go slice is a `List`; the nil slice and the empty slice are both `[]`
  (the dispatcher only ever takes `len` of a slice, ranges over it and appends).
* A Go pointer `*T` is an `Option T`, `none` being the nil pointer.
* A value of type `interface{}` is a `Dyn`: the nil interface, or a value
  tagged with its dynamic type.
* A value of type `error` is an `Option GoError`, `none` being `nil`.
* A driver is the table of answers its methods give (as a mock does); the
  calls the dispatcher makes are recorded in a trace, each with the position
  of the driver in the iteration order of `range drivers`.
* The map `drivers` is the list of its entries in the order `range` visits
  them in the call at hand.
* A run-time panic (failed type assertion, nil dereference) is an outcome of
  its own, `Except.error`.
-/

namespace Rexray

/-! ## Values of package `storagedriver` -/

/-- Modelled from the spec: the declaration of `storagedriver.BlockDevice` is not
part of the sources at hand; a host-visible device identified by its path. -/
structure BlockDevice where
  DeviceName : String := ""
  deriving DecidableEq, Repr

/-- Modelled from the spec: the declaration of `storagedriver.Instance` is not part
of the sources at hand; the dispatcher reads its field `InstanceID`. -/
structure Instance where
  InstanceID : String := ""
  Metadata : String := ""
  deriving DecidableEq, Repr

/-- Modelled from the spec: the declaration of `storagedriver.Volume` is not part of
the sources at hand; identity, capacity, performance class and provisioning type. -/
structure Volume where
  VolumeID : String := ""
  Size : Int := 0
  IOPS : Int := 0
  VolumeType : String := ""
  deriving DecidableEq, Repr

/-- Modelled from the spec: the declaration of `storagedriver.Snapshot` is not part
of the sources at hand; its own identity, the source volume and a description. -/
structure Snapshot where
  SnapshotID : String := ""
  VolumeID : String := ""
  Description : String := ""
  deriving DecidableEq, Repr

/-- Modelled from the spec: the declaration of `storagedriver.VolumeAttachment` is
not part of the sources at hand; the relation between a volume and an instance. -/
structure VolumeAttachment where
  VolumeID : String := ""
  InstanceID : String := ""
  DeviceName : String := ""
  Status : String := ""
  deriving DecidableEq, Repr

/-- The value of the composite literal `storagedriver.Volume{}`. -/
def Volume.zero : Volume := {}

/-! ## Errors -/

/-- A non-nil value of type `error`, with the way it was made. -/
inductive GoError where
  /-- The value made by `errors.New(text)`. -/
  | errorsNew (text : String)
  /-- The value made by `fmt.Errorf`, `text` being the formatted message. -/
  | fmtErrorf (text : String)
  /-- An error value made by a storage backend. -/
  | backend (code : Nat) (text : String)
  deriving DecidableEq, Repr

/-- The method `Error()` of an error value. -/
def GoError.Error : GoError → String
  | .errorsNew text => text
  | .fmtErrorf text => text
  | .backend _ text => text

def ErrDriverBlockDeviceDiscovery : GoError :=
  .errorsNew "Driver Block Device discovery failed"

def ErrDriverInstanceDiscovery : GoError :=
  .errorsNew "Driver Instance discovery failed"

def ErrDriverVolumeDiscovery : GoError :=
  .errorsNew "Driver Volume discovery failed"

def ErrDriverSnapshotDiscovery : GoError :=
  .errorsNew "Driver Snapshot discovery failed"

def ErrMultipleDriversDetected : GoError :=
  .errorsNew "Multiple drivers detected, must declare with driver with env of REXRAY_STORAGEDRIVER="

/-- The call `fmt.Errorf("Error: %s: %s", a, b)` on two error values: the verb
`%s` prints an error value through its `Error()` method. -/
def Errorf (a b : GoError) : GoError :=
  .fmtErrorf ("Error: " ++ a.Error ++ ": " ++ b.Error)

/-! ## Dynamically typed results and the driver contract -/

/-- A value of type `interface{}` as the drivers return it. -/
inductive Dyn where
  /-- The nil interface value. -/
  | nil
  /-- Dynamic type `[]*storagedriver.BlockDevice`. -/
  | blockDevices (l : List (Option BlockDevice))
  /-- Dynamic type `*storagedriver.Instance`. -/
  | instance (p : Option Instance)
  /-- Dynamic type `[]*storagedriver.Volume`. -/
  | volumes (l : List (Option Volume))
  /-- Dynamic type `*storagedriver.Volume`. -/
  | volume (p : Option Volume)
  /-- Dynamic type `[]*storagedriver.Snapshot`. -/
  | snapshots (l : List (Option Snapshot))
  /-- Dynamic type `[]*storagedriver.VolumeAttachment`. -/
  | attachments (l : List (Option VolumeAttachment))
  /-- Any other dynamic type. -/
  | other (typeName : String)
  deriving DecidableEq, Repr

/-- The interface `storagedriver.Driver`, as `rexray.go` uses it: the methods the
dispatcher calls, with the result types its call sites and type assertions fix. -/
structure Driver where
  GetBlockDeviceMapping : Dyn × Option GoError
  GetInstance : Dyn × Option GoError
  GetVolume : String → Dyn × Option GoError
  GetSnapshot : String → String → Dyn × Option GoError
  CreateSnapshot : Bool → String → String → Dyn × Option GoError
  RemoveSnapshot : String → Option GoError
  CreateVolume : Bool → String → String → Int → Int → Dyn × Option GoError
  RemoveVolume : String → Option GoError
  AttachVolume : Bool → String → String → Dyn × Option GoError
  DetachVolume : Bool → String → String → Option GoError

/-- The variable `drivers map[string]storagedriver.Driver`. -/
abbrev Registry := List (String × Driver)

/-- A method call on a driver, with its arguments. -/
inductive Call where
  | GetBlockDeviceMapping
  | GetInstance
  | GetVolume (volumeID : String)
  | GetSnapshot (volumeID snapshotID : String)
  | CreateSnapshot (runAsync : Bool) (volumeID description : String)
  | RemoveSnapshot (snapshotID : String)
  | CreateVolume (runAsync : Bool) (snapshotID volumeType : String) (IOPS size : Int)
  | RemoveVolume (volumeID : String)
  | AttachVolume (runAsync : Bool) (volumeID instanceID : String)
  | DetachVolume (runAsync : Bool) (volumeID instanceID : String)
  deriving DecidableEq, Repr

/-- One entry of the call trace: which driver (its position in the iteration)
and which call. -/
structure Event where
  driver : Nat
  call : Call
  deriving DecidableEq, Repr

/-- The two run-time panics the dispatcher can raise. -/
inductive GoPanic where
  /-- A type assertion `x.(T)` on a value whose dynamic type is not `T`. -/
  | interfaceConversion
  /-- A field read through a nil pointer. -/
  | nilDereference
  deriving DecidableEq, Repr

/-- What a call of a dispatcher operation does: the driver calls it made, and
either the values it returned or the panic that ended it. -/
structure Run (α : Type) where
  trace : List Event
  outcome : Except GoPanic α

/-! ## Fan-out operations -/

/-- The inner loop `for _, x := range xs { all = append(all, x) }`. -/
def appendEach {α : Type} (all xs : List α) : List α :=
  xs.foldl (fun acc x => acc ++ [x]) all

/-- The loop of `GetBlockDeviceMapping` from the driver at position `i` on. -/
def GetBlockDeviceMapping.loop :
    Nat → Registry → List (Option BlockDevice) → List Event →
      Run (List (Option BlockDevice) × Option GoError)
  | _, [], allBlockDevices, tr => ⟨tr, .ok (allBlockDevices, none)⟩
  | i, (_, driver) :: rest, allBlockDevices, tr =>
    let tr := tr ++ [⟨i, .GetBlockDeviceMapping⟩]
    match driver.GetBlockDeviceMapping with
    | (_, some err) => ⟨tr, .ok ([], some (Errorf ErrDriverBlockDeviceDiscovery err))⟩
    | (.blockDevices bs, none) =>
      if bs.length > 0 then
        GetBlockDeviceMapping.loop (i + 1) rest (appendEach allBlockDevices bs) tr
      else
        GetBlockDeviceMapping.loop (i + 1) rest allBlockDevices tr
    | (_, none) => ⟨tr, .error .interfaceConversion⟩

def GetBlockDeviceMapping (drivers : Registry) :
    Run (List (Option BlockDevice) × Option GoError) :=
  GetBlockDeviceMapping.loop 0 drivers [] []

/-- The loop of `GetInstance` from the driver at position `i` on. -/
def GetInstance.loop :
    Nat → Registry → List (Option Instance) → List Event →
      Run (List (Option Instance) × Option GoError)
  | _, [], allInstances, tr => ⟨tr, .ok (allInstances, none)⟩
  | i, (_, driver) :: rest, allInstances, tr =>
    let tr := tr ++ [⟨i, .GetInstance⟩]
    match driver.GetInstance with
    | (_, some err) => ⟨tr, .ok ([], some (Errorf ErrDriverInstanceDiscovery err))⟩
    | (.instance p, none) => GetInstance.loop (i + 1) rest (allInstances ++ [p]) tr
    | (_, none) => ⟨tr, .error .interfaceConversion⟩

def GetInstance (drivers : Registry) : Run (List (Option Instance) × Option GoError) :=
  GetInstance.loop 0 drivers [] []

/-- The loop of `GetVolume` from the driver at position `i` on. -/
def GetVolume.loop (volumeID : String) :
    Nat → Registry → List (Option Volume) → List Event →
      Run (List (Option Volume) × Option GoError)
  | _, [], allVolumes, tr => ⟨tr, .ok (allVolumes, none)⟩
  | i, (_, driver) :: rest, allVolumes, tr =>
    let tr := tr ++ [⟨i, .GetVolume volumeID⟩]
    match driver.GetVolume volumeID with
    | (_, some err) => ⟨tr, .ok ([], some (Errorf ErrDriverVolumeDiscovery err))⟩
    | (.volumes vs, none) =>
      if vs.length > 0 then
        GetVolume.loop volumeID (i + 1) rest (appendEach allVolumes vs) tr
      else
        GetVolume.loop volumeID (i + 1) rest allVolumes tr
    | (_, none) => ⟨tr, .error .interfaceConversion⟩

def GetVolume (drivers : Registry) (volumeID : String) :
    Run (List (Option Volume) × Option GoError) :=
  GetVolume.loop volumeID 0 drivers [] []

/-- The loop of `GetSnapshot` from the driver at position `i` on. -/
def GetSnapshot.loop (volumeID snapshotID : String) :
    Nat → Registry → List (Option Snapshot) → List Event →
      Run (List (Option Snapshot) × Option GoError)
  | _, [], allSnapshots, tr => ⟨tr, .ok (allSnapshots, none)⟩
  | i, (_, driver) :: rest, allSnapshots, tr =>
    let tr := tr ++ [⟨i, .GetSnapshot volumeID snapshotID⟩]
    match driver.GetSnapshot volumeID snapshotID with
    | (_, some err) => ⟨tr, .ok ([], some (Errorf ErrDriverSnapshotDiscovery err))⟩
    | (.snapshots ss, none) =>
      if ss.length > 0 then
        GetSnapshot.loop volumeID snapshotID (i + 1) rest (appendEach allSnapshots ss) tr
      else
        GetSnapshot.loop volumeID snapshotID (i + 1) rest allSnapshots tr
    | (_, none) => ⟨tr, .error .interfaceConversion⟩

def GetSnapshot (drivers : Registry) (volumeID snapshotID : String) :
    Run (List (Option Snapshot) × Option GoError) :=
  GetSnapshot.loop volumeID snapshotID 0 drivers [] []

/-! ## Single-driver-required operations -/

def CreateSnapshot (drivers : Registry) (runAsync : Bool) (volumeID description : String) :
    Run (List (Option Snapshot) × Option GoError) :=
  if drivers.length > 1 then
    ⟨[], .ok ([], some ErrMultipleDriversDetected)⟩
  else
    match drivers with
    | [] => ⟨[], .ok ([], none)⟩
    | (_, driver) :: _ =>
      let tr : List Event := [⟨0, .CreateSnapshot runAsync volumeID description⟩]
      match driver.CreateSnapshot runAsync volumeID description with
      | (_, some err) => ⟨tr, .ok ([], some err)⟩
      | (.snapshots ss, none) => ⟨tr, .ok (ss, none)⟩
      | (_, none) => ⟨tr, .error .interfaceConversion⟩

/-- The loop of `RemoveSnapshot` from the driver at position `i` on: its body
returns only when the driver fails. -/
def RemoveSnapshot.loop (snapshotID : String) :
    Nat → Registry → List Event → Run (Option GoError)
  | _, [], tr => ⟨tr, .ok none⟩
  | i, (_, driver) :: rest, tr =>
    let tr := tr ++ [⟨i, .RemoveSnapshot snapshotID⟩]
    match driver.RemoveSnapshot snapshotID with
    | some err => ⟨tr, .ok (some err)⟩
    | none => RemoveSnapshot.loop snapshotID (i + 1) rest tr

def RemoveSnapshot (drivers : Registry) (snapshotID : String) : Run (Option GoError) :=
  if drivers.length > 1 then
    ⟨[], .ok (some ErrMultipleDriversDetected)⟩
  else
    RemoveSnapshot.loop snapshotID 0 drivers []

def CreateVolume (drivers : Registry) (runAsync : Bool) (snapshotID volumeType : String)
    (IOPS size : Int) : Run (Option Volume × Option GoError) :=
  if drivers.length > 1 then
    ⟨[], .ok (some Volume.zero, some ErrMultipleDriversDetected)⟩
  else
    match drivers with
    | [] => ⟨[], .ok (some Volume.zero, none)⟩
    | (_, driver) :: _ =>
      let tr : List Event := [⟨0, .CreateVolume runAsync snapshotID volumeType IOPS size⟩]
      match driver.CreateVolume runAsync snapshotID volumeType IOPS size with
      | (_, some err) => ⟨tr, .ok (some Volume.zero, some err)⟩
      | (.volume p, none) => ⟨tr, .ok (p, none)⟩
      | (_, none) => ⟨tr, .error .interfaceConversion⟩

/-- The loop of `RemoveVolume` from the driver at position `i` on: its body
returns only when the driver fails. -/
def RemoveVolume.loop (volumeID : String) :
    Nat → Registry → List Event → Run (Option GoError)
  | _, [], tr => ⟨tr, .ok none⟩
  | i, (_, driver) :: rest, tr =>
    let tr := tr ++ [⟨i, .RemoveVolume volumeID⟩]
    match driver.RemoveVolume volumeID with
    | some err => ⟨tr, .ok (some err)⟩
    | none => RemoveVolume.loop volumeID (i + 1) rest tr

def RemoveVolume (drivers : Registry) (volumeID : String) : Run (Option GoError) :=
  if drivers.length > 1 then
    ⟨[], .ok (some ErrMultipleDriversDetected)⟩
  else
    RemoveVolume.loop volumeID 0 drivers []

/-- Lines 178 to 182 of `AttachVolume`: the call of the driver and the return. -/
def AttachVolume.call (driver : Driver) (runAsync : Bool) (volumeID instanceID : String)
    (tr : List Event) : Run (List (Option VolumeAttachment) × Option GoError) :=
  let tr := tr ++ [⟨0, .AttachVolume runAsync volumeID instanceID⟩]
  match driver.AttachVolume runAsync volumeID instanceID with
  | (_, some err) => ⟨tr, .ok ([], some err)⟩
  | (.attachments as, none) => ⟨tr, .ok (as, none)⟩
  | (_, none) => ⟨tr, .error .interfaceConversion⟩

def AttachVolume (drivers : Registry) (runAsync : Bool) (volumeID instanceID : String) :
    Run (List (Option VolumeAttachment) × Option GoError) :=
  if drivers.length > 1 then
    ⟨[], .ok ([], some ErrMultipleDriversDetected)⟩
  else
    match drivers with
    | [] => ⟨[], .ok ([], none)⟩
    | (_, driver) :: _ =>
      if instanceID = "" then
        let tr : List Event := [⟨0, .GetInstance⟩]
        match driver.GetInstance with
        | (_, some err) => ⟨tr, .ok ([], some (Errorf ErrDriverInstanceDiscovery err))⟩
        | (.instance (some inst), none) =>
          AttachVolume.call driver runAsync volumeID inst.InstanceID tr
        | (.instance none, none) => ⟨tr, .error .nilDereference⟩
        | (_, none) => ⟨tr, .error .interfaceConversion⟩
      else
        AttachVolume.call driver runAsync volumeID instanceID []

/-- Lines 200 to 204 of `DetachVolume`: the call of the driver and the return. -/
def DetachVolume.call (driver : Driver) (runAsync : Bool) (volumeID instanceID : String)
    (tr : List Event) : Run (Option GoError) :=
  let tr := tr ++ [⟨0, .DetachVolume runAsync volumeID instanceID⟩]
  match driver.DetachVolume runAsync volumeID instanceID with
  | some err => ⟨tr, .ok (some err)⟩
  | none => ⟨tr, .ok none⟩

/-- In `DetachVolume` the value of `fmt.Errorf` at line 195 is dropped and nothing
returns there, so the type assertion and the field read of line 197 run on
the value `GetInstance` gave, whether or not it came with an error. -/
def DetachVolume (drivers : Registry) (runAsync : Bool) (volumeID instanceID : String) :
    Run (Option GoError) :=
  if drivers.length > 1 then
    ⟨[], .ok (some ErrMultipleDriversDetected)⟩
  else
    match drivers with
    | [] => ⟨[], .ok none⟩
    | (_, driver) :: _ =>
      if instanceID = "" then
        let tr : List Event := [⟨0, .GetInstance⟩]
        match driver.GetInstance with
        | (.instance (some inst), _) =>
          DetachVolume.call driver runAsync volumeID inst.InstanceID tr
        | (.instance none, _) => ⟨tr, .error .nilDereference⟩
        | (_, _) => ⟨tr, .error .interfaceConversion⟩
      else
        DetachVolume.call driver runAsync volumeID instanceID []

/-! ## Initialisation of the registry -/

/-- What `init` takes from outside the package: the environment, the two
functions of package `strings`, and `storagedriver.GetDrivers` (a nil map is
the empty list). -/
structure Host where
  Getenv : String → String
  ToUpper : String → String
  ToLower : String → String
  GetDrivers : String → Registry × Option GoError

/-- How `init` ends: `log.Fatalf` ends the process, otherwise the package
variables are set and the program goes on. -/
inductive InitOutcome where
  | fatal (message : String)
  | ready (debug storageDrivers : String) (drivers : Registry)

/-- The effect of `init`: the lines printed by `fmt.Println` and the way it ends. -/
structure InitRun where
  printed : List String
  outcome : InitOutcome

def init (host : Host) : InitRun :=
  let debug := host.ToUpper (host.Getenv "REXRAY_DEBUG")
  let storageDrivers := host.ToLower (host.Getenv "REXRAY_STORAGEDRIVERS")
  match host.GetDrivers storageDrivers with
  | (drivers, err) =>
    let printed : List String :=
      match err with
      | some e => if debug = "TRUE" then [e.Error] else []
      | none => []
    if drivers.length = 0 then
      ⟨printed, .fatal "No drivers initialized"⟩
    else
      ⟨printed, .ready debug storageDrivers drivers⟩

/-! ## Vocabulary of the statements -/

/-- The name of the driver method a call invokes. -/
def Call.method : Call → String
  | .GetBlockDeviceMapping => "GetBlockDeviceMapping"
  | .GetInstance => "GetInstance"
  | .GetVolume _ => "GetVolume"
  | .GetSnapshot _ _ => "GetSnapshot"
  | .CreateSnapshot _ _ _ => "CreateSnapshot"
  | .RemoveSnapshot _ => "RemoveSnapshot"
  | .CreateVolume _ _ _ _ _ => "CreateVolume"
  | .RemoveVolume _ => "RemoveVolume"
  | .AttachVolume _ _ _ => "AttachVolume"
  | .DetachVolume _ _ _ => "DetachVolume"

/-- The value of `runAsync` a call hands to the driver, for the four methods
that take one. -/
def Call.asyncFlag : Call → Option Bool
  | .CreateSnapshot runAsync _ _ => some runAsync
  | .CreateVolume runAsync _ _ _ _ => some runAsync
  | .AttachVolume runAsync _ _ => some runAsync
  | .DetachVolume runAsync _ _ => some runAsync
  | _ => none

/-- The same call with `b` as value of `runAsync`, where the method takes one. -/
def Call.setAsync (b : Bool) : Call → Call
  | .CreateSnapshot _ volumeID description => .CreateSnapshot b volumeID description
  | .CreateVolume _ snapshotID volumeType IOPS size =>
    .CreateVolume b snapshotID volumeType IOPS size
  | .AttachVolume _ volumeID instanceID => .AttachVolume b volumeID instanceID
  | .DetachVolume _ volumeID instanceID => .DetachVolume b volumeID instanceID
  | c => c

/-- The same trace entry with `b` as value of `runAsync`. -/
def Event.setAsync (b : Bool) (ev : Event) : Event :=
  ⟨ev.driver, ev.call.setAsync b⟩

/-- Which method of which driver a trace entry is a call of. -/
def Event.key (ev : Event) : Nat × String :=
  (ev.driver, ev.call.method)

/-- The sequence held by a value of dynamic type `[]*storagedriver.BlockDevice`. -/
def Dyn.blockDevicesOf : Dyn → List (Option BlockDevice)
  | .blockDevices l => l
  | _ => []

/-- The one-element sequence of a value of dynamic type `*storagedriver.Instance`. -/
def Dyn.instancesOf : Dyn → List (Option Instance)
  | .instance p => [p]
  | _ => []

/-- The sequence held by a value of dynamic type `[]*storagedriver.Volume`. -/
def Dyn.volumesOf : Dyn → List (Option Volume)
  | .volumes l => l
  | _ => []

/-- The sequence held by a value of dynamic type `[]*storagedriver.Snapshot`. -/
def Dyn.snapshotsOf : Dyn → List (Option Snapshot)
  | .snapshots l => l
  | _ => []

/-- The contract on a driver under which the type assertions of the dispatcher
are meant to be safe: whenever a method returns a nil error, the value it
returns with it is a non-nil value of the dynamic type the dispatcher
asserts. Nothing is asked of the value that comes with a non-nil error. -/
def Driver.WellTyped (d : Driver) : Prop :=
  ((d.GetBlockDeviceMapping).2 = none →
    ∃ l, (d.GetBlockDeviceMapping).1 = Dyn.blockDevices l) ∧
  ((d.GetInstance).2 = none → ∃ inst, (d.GetInstance).1 = Dyn.instance (some inst)) ∧
  (∀ volumeID, (d.GetVolume volumeID).2 = none →
    ∃ l, (d.GetVolume volumeID).1 = Dyn.volumes l) ∧
  (∀ volumeID snapshotID, (d.GetSnapshot volumeID snapshotID).2 = none →
    ∃ l, (d.GetSnapshot volumeID snapshotID).1 = Dyn.snapshots l) ∧
  (∀ runAsync volumeID description,
    (d.CreateSnapshot runAsync volumeID description).2 = none →
    ∃ l, (d.CreateSnapshot runAsync volumeID description).1 = Dyn.snapshots l) ∧
  (∀ runAsync snapshotID volumeType IOPS size,
    (d.CreateVolume runAsync snapshotID volumeType IOPS size).2 = none →
    ∃ vol, (d.CreateVolume runAsync snapshotID volumeType IOPS size).1
      = Dyn.volume (some vol)) ∧
  (∀ runAsync volumeID instanceID,
    (d.AttachVolume runAsync volumeID instanceID).2 = none →
    ∃ l, (d.AttachVolume runAsync volumeID instanceID).1 = Dyn.attachments l)

/-! ## Sample drivers

Concrete backends on which the statements below are evaluated. -/

/-- An error value of a backend. -/
def backendDown : GoError := .backend 503 "backend unreachable"

/-- A backend every method of which succeeds. -/
def sampleDriver : Driver where
  GetBlockDeviceMapping := (.blockDevices [some { DeviceName := "/dev/xvda" }], none)
  GetInstance := (.instance (some { InstanceID := "i-123" }), none)
  GetVolume := fun _ =>
    (.volumes [some { VolumeID := "vol-1" }, some { VolumeID := "vol-2" }], none)
  GetSnapshot := fun volumeID _ =>
    (.snapshots [some { SnapshotID := "snap-1", VolumeID := volumeID }], none)
  CreateSnapshot := fun _ volumeID description =>
    (.snapshots [some { SnapshotID := "snap-2", VolumeID := volumeID,
                        Description := description }], none)
  RemoveSnapshot := fun _ => none
  CreateVolume := fun _ _ volumeType IOPS size =>
    (.volume (some { VolumeID := "vol-3", Size := size, IOPS := IOPS,
                     VolumeType := volumeType }), none)
  RemoveVolume := fun _ => none
  AttachVolume := fun _ volumeID instanceID =>
    (.attachments [some { VolumeID := volumeID, InstanceID := instanceID,
                          DeviceName := "/dev/xvdf", Status := "attached" }], none)
  DetachVolume := fun _ _ _ => none

/-- A second backend, with other answers to the discovery calls. -/
def otherDriver : Driver :=
  { sampleDriver with
    GetBlockDeviceMapping := (.blockDevices [], none)
    GetInstance := (.instance (some { InstanceID := "host-7" }), none)
    GetVolume := fun _ => (.volumes [some { VolumeID := "vol-9" }], none)
    GetSnapshot := fun _ _ =>
      (.snapshots [some { SnapshotID := "snap-8" }, some { SnapshotID := "snap-9" }], none) }

/-- A backend every method of which fails, giving a nil value with the error. -/
def failingDriver : Driver where
  GetBlockDeviceMapping := (.nil, some backendDown)
  GetInstance := (.nil, some backendDown)
  GetVolume := fun _ => (.nil, some backendDown)
  GetSnapshot := fun _ _ => (.nil, some backendDown)
  CreateSnapshot := fun _ _ _ => (.nil, some backendDown)
  RemoveSnapshot := fun _ => some backendDown
  CreateVolume := fun _ _ _ _ _ => (.nil, some backendDown)
  RemoveVolume := fun _ => some backendDown
  AttachVolume := fun _ _ _ => (.nil, some backendDown)
  DetachVolume := fun _ _ _ => some backendDown

/-- A backend whose discovery methods answer `nil, nil` when they find nothing:
a nil error with a value that is not of the type the dispatcher asserts. -/
def illTypedDriver : Driver :=
  { sampleDriver with
    GetBlockDeviceMapping := (.nil, none)
    GetVolume := fun _ => (.nil, none)
    GetSnapshot := fun _ _ => (.nil, none) }

/-- A backend whose `GetInstance` fails, giving a nil value with the error, and
whose other methods succeed. -/
def lostInstanceDriver : Driver :=
  { sampleDriver with GetInstance := (.nil, some backendDown) }

/-- A backend whose `GetInstance` fails and gives a non-nil instance with the
error. -/
def staleInstanceDriver : Driver :=
  { sampleDriver with
    GetInstance := (.instance (some { InstanceID := "i-999" }), some backendDown) }

/-- A host on which `GetDrivers` builds one backend and reports an error for
another. Its `ToUpper` and `ToLower` are the ASCII case maps, which agree with
`strings.ToUpper` and `strings.ToLower` on the ASCII values of its environment. -/
def sampleHost : Host where
  Getenv := fun key => if key = "REXRAY_DEBUG" then "true" else "EC2,Rackspace"
  ToUpper := String.toUpper
  ToLower := String.toLower
  GetDrivers := fun _ => ([("ec2", sampleDriver)], some backendDown)

/-- A host on which `GetDrivers` builds no backend and reports no error; its
environment is empty, on which the ASCII case maps agree with those of
package `strings`. -/
def bareHost : Host where
  Getenv := fun _ => ""
  ToUpper := String.toUpper
  ToLower := String.toLower
  GetDrivers := fun _ => ([], none)

/-! ## Lemmas on the loops -/

theorem appendEach_eq {α : Type} (all xs : List α) : appendEach all xs = all ++ xs := by
  unfold appendEach
  induction xs generalizing all with
  | nil => simp
  | cons x xs ih => simp [List.foldl_cons, ih]

theorem GetBlockDeviceMapping_loop_ok (i : Nat) (drivers : Registry)
    (bss : List (List (Option BlockDevice))) (all : List (Option BlockDevice))
    (tr : List Event)
    (h : List.Forall₂ (fun e bs => e.2.GetBlockDeviceMapping = (Dyn.blockDevices bs, none))
      drivers bss) :
    (GetBlockDeviceMapping.loop i drivers all tr).outcome = .ok (all ++ bss.flatten, none) := by
  induction h generalizing i all tr with
  | nil => simp [GetBlockDeviceMapping.loop]
  | @cons e bs rest bss he _ ih =>
    obtain ⟨name, d⟩ := e
    simp only at he
    simp only [GetBlockDeviceMapping.loop, he]
    split
    · rw [ih, appendEach_eq]; simp
    · have hb : bs = [] := by
        cases bs with
        | nil => rfl
        | cons _ _ => simp at *
      rw [ih, hb]; simp

theorem GetVolume_loop_ok (volumeID : String) (i : Nat) (drivers : Registry)
    (vss : List (List (Option Volume))) (all : List (Option Volume)) (tr : List Event)
    (h : List.Forall₂ (fun e vs => e.2.GetVolume volumeID = (Dyn.volumes vs, none))
      drivers vss) :
    (GetVolume.loop volumeID i drivers all tr).outcome = .ok (all ++ vss.flatten, none) := by
  induction h generalizing i all tr with
  | nil => simp [GetVolume.loop]
  | @cons e vs rest vss he _ ih =>
    obtain ⟨name, d⟩ := e
    simp only at he
    simp only [GetVolume.loop, he]
    split
    · rw [ih, appendEach_eq]; simp
    · have hb : vs = [] := by
        cases vs with
        | nil => rfl
        | cons _ _ => simp at *
      rw [ih, hb]; simp

theorem GetSnapshot_loop_ok (volumeID snapshotID : String) (i : Nat) (drivers : Registry)
    (sss : List (List (Option Snapshot))) (all : List (Option Snapshot)) (tr : List Event)
    (h : List.Forall₂
      (fun e ss => e.2.GetSnapshot volumeID snapshotID = (Dyn.snapshots ss, none))
      drivers sss) :
    (GetSnapshot.loop volumeID snapshotID i drivers all tr).outcome
      = .ok (all ++ sss.flatten, none) := by
  induction h generalizing i all tr with
  | nil => simp [GetSnapshot.loop]
  | @cons e ss rest sss he _ ih =>
    obtain ⟨name, d⟩ := e
    simp only at he
    simp only [GetSnapshot.loop, he]
    split
    · rw [ih, appendEach_eq]; simp
    · have hb : ss = [] := by
        cases ss with
        | nil => rfl
        | cons _ _ => simp at *
      rw [ih, hb]; simp

theorem GetBlockDeviceMapping_loop_fails (pre : Registry) (e : String × Driver)
    (post : Registry) (i : Nat) (all : List (Option BlockDevice)) (tr : List Event)
    (hpre : ∀ x ∈ pre, (x.2.GetBlockDeviceMapping).2 = none →
      ∃ l, (x.2.GetBlockDeviceMapping).1 = Dyn.blockDevices l)
    (he : (e.2.GetBlockDeviceMapping).2 ≠ none) :
    ∃ err, (GetBlockDeviceMapping.loop i (pre ++ e :: post) all tr).outcome = .ok ([], some err) := by
  induction pre generalizing i all tr with
  | nil =>
    obtain ⟨name, d⟩ := e
    rcases hd : d.GetBlockDeviceMapping with ⟨v, _ | err⟩
    · simp [hd] at he
    · exact ⟨Errorf ErrDriverBlockDeviceDiscovery err, by simp [GetBlockDeviceMapping.loop, hd]⟩
  | cons x pre ih =>
    obtain ⟨name, d⟩ := x
    have ih2 := fun i all tr => ih i all tr (fun y hy => hpre y (List.mem_cons_of_mem _ hy))
    have hx := hpre (name, d) (List.mem_cons_self _ _)
    rcases hd : d.GetBlockDeviceMapping with ⟨v, _ | err⟩
    · obtain ⟨l, hl⟩ := hx (by simp [hd])
      simp only [hd] at hl
      subst hl
      simp only [List.cons_append, GetBlockDeviceMapping.loop, hd]
      split
      · exact ih2 _ _ _
      · exact ih2 _ _ _
    · exact ⟨Errorf ErrDriverBlockDeviceDiscovery err, by simp [GetBlockDeviceMapping.loop, hd]⟩

theorem GetBlockDeviceMapping_loop_first_failure (pre : Registry) (e : String × Driver)
    (post : Registry) (i : Nat) (all : List (Option BlockDevice)) (tr : List Event)
    (v : Dyn) (err : GoError)
    (hpre : ∀ x ∈ pre, ∃ l, x.2.GetBlockDeviceMapping = (Dyn.blockDevices l, none))
    (he : e.2.GetBlockDeviceMapping = (v, some err)) :
    (GetBlockDeviceMapping.loop i (pre ++ e :: post) all tr).outcome
      = .ok ([], some (Errorf ErrDriverBlockDeviceDiscovery err)) := by
  induction pre generalizing i all tr with
  | nil =>
    obtain ⟨name, d⟩ := e
    simp only at he
    simp [GetBlockDeviceMapping.loop, he]
  | cons x pre ih =>
    obtain ⟨name, d⟩ := x
    have ih2 := fun i all tr => ih i all tr (fun y hy => hpre y (List.mem_cons_of_mem _ hy))
    obtain ⟨l, hl⟩ := hpre (name, d) (List.mem_cons_self _ _)
    simp only at hl
    simp only [List.cons_append, GetBlockDeviceMapping.loop, hl]
    split
    · exact ih2 _ _ _
    · exact ih2 _ _ _

theorem GetInstance_loop_fails (pre : Registry) (e : String × Driver)
    (post : Registry) (i : Nat) (all : List (Option Instance)) (tr : List Event)
    (hpre : ∀ x ∈ pre, (x.2.GetInstance).2 = none →
      ∃ l, (x.2.GetInstance).1 = Dyn.instance l)
    (he : (e.2.GetInstance).2 ≠ none) :
    ∃ err, (GetInstance.loop i (pre ++ e :: post) all tr).outcome = .ok ([], some err) := by
  induction pre generalizing i all tr with
  | nil =>
    obtain ⟨name, d⟩ := e
    rcases hd : d.GetInstance with ⟨v, _ | err⟩
    · simp [hd] at he
    · exact ⟨Errorf ErrDriverInstanceDiscovery err, by simp [GetInstance.loop, hd]⟩
  | cons x pre ih =>
    obtain ⟨name, d⟩ := x
    have ih2 := fun i all tr => ih i all tr (fun y hy => hpre y (List.mem_cons_of_mem _ hy))
    have hx := hpre (name, d) (List.mem_cons_self _ _)
    rcases hd : d.GetInstance with ⟨v, _ | err⟩
    · obtain ⟨l, hl⟩ := hx (by simp [hd])
      simp only [hd] at hl
      subst hl
      simp only [List.cons_append, GetInstance.loop, hd]
      exact ih2 _ _ _
    · exact ⟨Errorf ErrDriverInstanceDiscovery err, by simp [GetInstance.loop, hd]⟩

theorem GetInstance_loop_first_failure (pre : Registry) (e : String × Driver)
    (post : Registry) (i : Nat) (all : List (Option Instance)) (tr : List Event)
    (v : Dyn) (err : GoError)
    (hpre : ∀ x ∈ pre, ∃ l, x.2.GetInstance = (Dyn.instance l, none))
    (he : e.2.GetInstance = (v, some err)) :
    (GetInstance.loop i (pre ++ e :: post) all tr).outcome
      = .ok ([], some (Errorf ErrDriverInstanceDiscovery err)) := by
  induction pre generalizing i all tr with
  | nil =>
    obtain ⟨name, d⟩ := e
    simp only at he
    simp [GetInstance.loop, he]
  | cons x pre ih =>
    obtain ⟨name, d⟩ := x
    have ih2 := fun i all tr => ih i all tr (fun y hy => hpre y (List.mem_cons_of_mem _ hy))
    obtain ⟨l, hl⟩ := hpre (name, d) (List.mem_cons_self _ _)
    simp only at hl
    simp only [List.cons_append, GetInstance.loop, hl]
    exact ih2 _ _ _

theorem GetVolume_loop_fails (volumeID : String) (pre : Registry) (e : String × Driver)
    (post : Registry) (i : Nat) (all : List (Option Volume)) (tr : List Event)
    (hpre : ∀ x ∈ pre, (x.2.GetVolume volumeID).2 = none →
      ∃ l, (x.2.GetVolume volumeID).1 = Dyn.volumes l)
    (he : (e.2.GetVolume volumeID).2 ≠ none) :
    ∃ err, (GetVolume.loop volumeID i (pre ++ e :: post) all tr).outcome = .ok ([], some err) := by
  induction pre generalizing i all tr with
  | nil =>
    obtain ⟨name, d⟩ := e
    rcases hd : d.GetVolume volumeID with ⟨v, _ | err⟩
    · simp [hd] at he
    · exact ⟨Errorf ErrDriverVolumeDiscovery err, by simp [GetVolume.loop, hd]⟩
  | cons x pre ih =>
    obtain ⟨name, d⟩ := x
    have ih2 := fun i all tr => ih i all tr (fun y hy => hpre y (List.mem_cons_of_mem _ hy))
    have hx := hpre (name, d) (List.mem_cons_self _ _)
    rcases hd : d.GetVolume volumeID with ⟨v, _ | err⟩
    · obtain ⟨l, hl⟩ := hx (by simp [hd])
      simp only [hd] at hl
      subst hl
      simp only [List.cons_append, GetVolume.loop, hd]
      split
      · exact ih2 _ _ _
      · exact ih2 _ _ _
    · exact ⟨Errorf ErrDriverVolumeDiscovery err, by simp [GetVolume.loop, hd]⟩

theorem GetVolume_loop_first_failure (volumeID : String) (pre : Registry) (e : String × Driver)
    (post : Registry) (i : Nat) (all : List (Option Volume)) (tr : List Event)
    (v : Dyn) (err : GoError)
    (hpre : ∀ x ∈ pre, ∃ l, x.2.GetVolume volumeID = (Dyn.volumes l, none))
    (he : e.2.GetVolume volumeID = (v, some err)) :
    (GetVolume.loop volumeID i (pre ++ e :: post) all tr).outcome
      = .ok ([], some (Errorf ErrDriverVolumeDiscovery err)) := by
  induction pre generalizing i all tr with
  | nil =>
    obtain ⟨name, d⟩ := e
    simp only at he
    simp [GetVolume.loop, he]
  | cons x pre ih =>
    obtain ⟨name, d⟩ := x
    have ih2 := fun i all tr => ih i all tr (fun y hy => hpre y (List.mem_cons_of_mem _ hy))
    obtain ⟨l, hl⟩ := hpre (name, d) (List.mem_cons_self _ _)
    simp only at hl
    simp only [List.cons_append, GetVolume.loop, hl]
    split
    · exact ih2 _ _ _
    · exact ih2 _ _ _

theorem GetSnapshot_loop_fails (volumeID snapshotID : String) (pre : Registry) (e : String × Driver)
    (post : Registry) (i : Nat) (all : List (Option Snapshot)) (tr : List Event)
    (hpre : ∀ x ∈ pre, (x.2.GetSnapshot volumeID snapshotID).2 = none →
      ∃ l, (x.2.GetSnapshot volumeID snapshotID).1 = Dyn.snapshots l)
    (he : (e.2.GetSnapshot volumeID snapshotID).2 ≠ none) :
    ∃ err, (GetSnapshot.loop volumeID snapshotID i (pre ++ e :: post) all tr).outcome = .ok ([], some err) := by
  induction pre generalizing i all tr with
  | nil =>
    obtain ⟨name, d⟩ := e
    rcases hd : d.GetSnapshot volumeID snapshotID with ⟨v, _ | err⟩
    · simp [hd] at he
    · exact ⟨Errorf ErrDriverSnapshotDiscovery err, by simp [GetSnapshot.loop, hd]⟩
  | cons x pre ih =>
    obtain ⟨name, d⟩ := x
    have ih2 := fun i all tr => ih i all tr (fun y hy => hpre y (List.mem_cons_of_mem _ hy))
    have hx := hpre (name, d) (List.mem_cons_self _ _)
    rcases hd : d.GetSnapshot volumeID snapshotID with ⟨v, _ | err⟩
    · obtain ⟨l, hl⟩ := hx (by simp [hd])
      simp only [hd] at hl
      subst hl
      simp only [List.cons_append, GetSnapshot.loop, hd]
      split
      · exact ih2 _ _ _
      · exact ih2 _ _ _
    · exact ⟨Errorf ErrDriverSnapshotDiscovery err, by simp [GetSnapshot.loop, hd]⟩

theorem GetSnapshot_loop_first_failure (volumeID snapshotID : String) (pre : Registry) (e : String × Driver)
    (post : Registry) (i : Nat) (all : List (Option Snapshot)) (tr : List Event)
    (v : Dyn) (err : GoError)
    (hpre : ∀ x ∈ pre, ∃ l, x.2.GetSnapshot volumeID snapshotID = (Dyn.snapshots l, none))
    (he : e.2.GetSnapshot volumeID snapshotID = (v, some err)) :
    (GetSnapshot.loop volumeID snapshotID i (pre ++ e :: post) all tr).outcome
      = .ok ([], some (Errorf ErrDriverSnapshotDiscovery err)) := by
  induction pre generalizing i all tr with
  | nil =>
    obtain ⟨name, d⟩ := e
    simp only at he
    simp [GetSnapshot.loop, he]
  | cons x pre ih =>
    obtain ⟨name, d⟩ := x
    have ih2 := fun i all tr => ih i all tr (fun y hy => hpre y (List.mem_cons_of_mem _ hy))
    obtain ⟨l, hl⟩ := hpre (name, d) (List.mem_cons_self _ _)
    simp only at hl
    simp only [List.cons_append, GetSnapshot.loop, hl]
    split
    · exact ih2 _ _ _
    · exact ih2 _ _ _

theorem GetBlockDeviceMapping_loop_trace_shape (drivers : Registry) (i : Nat)
    (all : List (Option BlockDevice)) (tr : List Event) :
    ∃ k, k ≤ drivers.length ∧
      (GetBlockDeviceMapping.loop i drivers all tr).trace
        = tr ++ (List.range' i k).map (fun j => (⟨j, .GetBlockDeviceMapping⟩ : Event)) := by
  induction drivers generalizing i all tr with
  | nil => exact ⟨0, by simp [GetBlockDeviceMapping.loop]⟩
  | cons x rest ih =>
    obtain ⟨name, d⟩ := x
    have step : ∀ all2, ∃ k, k ≤ ((name, d) :: rest).length ∧
        (GetBlockDeviceMapping.loop (i + 1) rest all2 (tr ++ [⟨i, .GetBlockDeviceMapping⟩])).trace
          = tr ++ (List.range' i k).map (fun j => (⟨j, .GetBlockDeviceMapping⟩ : Event)) := by
      intro all2
      obtain ⟨k, hk, hk2⟩ := ih (i + 1) all2 (tr ++ [⟨i, .GetBlockDeviceMapping⟩])
      exact ⟨k + 1, by simpa using hk, by simp [hk2, List.range'_succ]⟩
    have stop : ∃ k, k ≤ ((name, d) :: rest).length ∧
        tr ++ [(⟨i, .GetBlockDeviceMapping⟩ : Event)]
          = tr ++ (List.range' i k).map (fun j => (⟨j, .GetBlockDeviceMapping⟩ : Event)) :=
      ⟨1, by simp, by simp [List.range'_succ]⟩
    simp only [GetBlockDeviceMapping.loop]
    split
    · exact stop
    · split
      · exact step _
      · exact step _
    · exact stop

theorem GetBlockDeviceMapping_loop_trace_ok (drivers : Registry) (i : Nat)
    (all : List (Option BlockDevice)) (tr : List Event)
    (h : ∀ x ∈ drivers, ∃ l, x.2.GetBlockDeviceMapping = (Dyn.blockDevices l, none)) :
    (GetBlockDeviceMapping.loop i drivers all tr).trace
      = tr ++ (List.range' i drivers.length).map (fun j => (⟨j, .GetBlockDeviceMapping⟩ : Event)) := by
  induction drivers generalizing i all tr with
  | nil => simp [GetBlockDeviceMapping.loop]
  | cons x rest ih =>
    obtain ⟨name, d⟩ := x
    have ih2 := fun i all tr => ih i all tr (fun y hy => h y (List.mem_cons_of_mem _ hy))
    obtain ⟨l, hl⟩ := h (name, d) (List.mem_cons_self _ _)
    simp only at hl
    simp only [GetBlockDeviceMapping.loop, hl]
    split
    · exact (ih2 _ _ _).trans (by simp [List.range'_succ])
    · exact (ih2 _ _ _).trans (by simp [List.range'_succ])

theorem GetBlockDeviceMapping_loop_trace_first_failure (pre : Registry)
    (e : String × Driver) (post : Registry) (i : Nat) (all : List (Option BlockDevice))
    (tr : List Event)
    (hpre : ∀ x ∈ pre, ∃ l, x.2.GetBlockDeviceMapping = (Dyn.blockDevices l, none))
    (he : (e.2.GetBlockDeviceMapping).2 ≠ none) :
    (GetBlockDeviceMapping.loop i (pre ++ e :: post) all tr).trace
      = tr ++ (List.range' i (pre.length + 1)).map (fun j => (⟨j, .GetBlockDeviceMapping⟩ : Event)) := by
  induction pre generalizing i all tr with
  | nil =>
    obtain ⟨name, d⟩ := e
    rcases hd : d.GetBlockDeviceMapping with ⟨v, _ | err⟩
    · simp [hd] at he
    · simp [GetBlockDeviceMapping.loop, hd, List.range'_succ]
  | cons x pre ih =>
    obtain ⟨name, d⟩ := x
    have ih2 := fun i all tr => ih i all tr (fun y hy => hpre y (List.mem_cons_of_mem _ hy))
    obtain ⟨l, hl⟩ := hpre (name, d) (List.mem_cons_self _ _)
    simp only at hl
    simp only [List.cons_append, GetBlockDeviceMapping.loop, hl]
    split
    · exact (ih2 _ _ _).trans (by simp [List.range'_succ])
    · exact (ih2 _ _ _).trans (by simp [List.range'_succ])

theorem GetBlockDeviceMapping_loop_error_mem (drivers : Registry) (i : Nat)
    (all : List (Option BlockDevice)) (tr : List Event) (r : List (Option BlockDevice)) (err : GoError)
    (h : (GetBlockDeviceMapping.loop i drivers all tr).outcome = .ok (r, some err)) :
    ∃ x ∈ drivers, (x.2.GetBlockDeviceMapping).2 ≠ none := by
  induction drivers generalizing i all tr with
  | nil => simp [GetBlockDeviceMapping.loop] at h
  | cons x rest ih =>
    obtain ⟨name, d⟩ := x
    rcases hd : d.GetBlockDeviceMapping with ⟨v, _ | e⟩
    · have hrec : ∀ all2 tr2,
          (GetBlockDeviceMapping.loop (i + 1) rest all2 tr2).outcome = .ok (r, some err) →
          ∃ x ∈ (name, d) :: rest, (x.2.GetBlockDeviceMapping).2 ≠ none := by
        intro all2 tr2 h2
        obtain ⟨y, hy, hy2⟩ := ih (i + 1) all2 tr2 h2
        exact ⟨y, List.mem_cons_of_mem _ hy, hy2⟩
      cases v <;> simp only [GetBlockDeviceMapping.loop, hd] at h <;> try (simp at h; done)
      split at h
      · exact hrec _ _ h
      · exact hrec _ _ h
    · exact ⟨(name, d), List.mem_cons_self _ _, by simp [hd]⟩

theorem GetBlockDeviceMapping_loop_success_flatten (drivers : Registry) (i : Nat)
    (all : List (Option BlockDevice)) (tr : List Event) (r : List (Option BlockDevice))
    (h : (GetBlockDeviceMapping.loop i drivers all tr).outcome = .ok (r, none)) :
    r = all ++ (drivers.map (fun x => (x.2.GetBlockDeviceMapping).1.blockDevicesOf)).flatten := by
  induction drivers generalizing i all tr with
  | nil => simpa [GetBlockDeviceMapping.loop] using h.symm
  | cons x rest ih =>
    obtain ⟨name, d⟩ := x
    rcases hd : d.GetBlockDeviceMapping with ⟨v, _ | e⟩
    · cases v <;> simp only [GetBlockDeviceMapping.loop, hd] at h <;> try (simp at h; done)
      rename_i l
      split at h
      · rw [ih _ _ _ h, appendEach_eq]
        simp [hd, Dyn.blockDevicesOf]
      · have hl : l = [] := by
          cases l with
          | nil => rfl
          | cons _ _ => simp at *
        rw [ih _ _ _ h]
        simp [hd, Dyn.blockDevicesOf, hl]
    · simp [GetBlockDeviceMapping.loop, hd] at h

theorem GetBlockDeviceMapping_loop_returns (drivers : Registry) (i : Nat)
    (all : List (Option BlockDevice)) (tr : List Event)
    (h : ∀ x ∈ drivers, (x.2.GetBlockDeviceMapping).2 = none → ∃ l, (x.2.GetBlockDeviceMapping).1 = Dyn.blockDevices l) :
    ∃ res, (GetBlockDeviceMapping.loop i drivers all tr).outcome = .ok res := by
  induction drivers generalizing i all tr with
  | nil => exact ⟨_, rfl⟩
  | cons x rest ih =>
    obtain ⟨name, d⟩ := x
    have ih2 := fun i all tr => ih i all tr (fun y hy => h y (List.mem_cons_of_mem _ hy))
    have hx := h (name, d) (List.mem_cons_self _ _)
    rcases hd : d.GetBlockDeviceMapping with ⟨v, _ | e⟩
    · obtain ⟨l, hl⟩ := hx (by simp [hd])
      simp only [hd] at hl
      subst hl
      simp only [GetBlockDeviceMapping.loop, hd]
      split
      · exact ih2 _ _ _
      · exact ih2 _ _ _
    · simp only [GetBlockDeviceMapping.loop, hd]
      exact ⟨_, rfl⟩

theorem GetInstance_loop_trace_shape (drivers : Registry) (i : Nat)
    (all : List (Option Instance)) (tr : List Event) :
    ∃ k, k ≤ drivers.length ∧
      (GetInstance.loop i drivers all tr).trace
        = tr ++ (List.range' i k).map (fun j => (⟨j, .GetInstance⟩ : Event)) := by
  induction drivers generalizing i all tr with
  | nil => exact ⟨0, by simp [GetInstance.loop]⟩
  | cons x rest ih =>
    obtain ⟨name, d⟩ := x
    have step : ∀ all2, ∃ k, k ≤ ((name, d) :: rest).length ∧
        (GetInstance.loop (i + 1) rest all2 (tr ++ [⟨i, .GetInstance⟩])).trace
          = tr ++ (List.range' i k).map (fun j => (⟨j, .GetInstance⟩ : Event)) := by
      intro all2
      obtain ⟨k, hk, hk2⟩ := ih (i + 1) all2 (tr ++ [⟨i, .GetInstance⟩])
      exact ⟨k + 1, by simpa using hk, by simp [hk2, List.range'_succ]⟩
    have stop : ∃ k, k ≤ ((name, d) :: rest).length ∧
        tr ++ [(⟨i, .GetInstance⟩ : Event)]
          = tr ++ (List.range' i k).map (fun j => (⟨j, .GetInstance⟩ : Event)) :=
      ⟨1, by simp, by simp [List.range'_succ]⟩
    simp only [GetInstance.loop]
    split
    · exact stop
    · exact step _
    · exact stop

theorem GetInstance_loop_trace_ok (drivers : Registry) (i : Nat)
    (all : List (Option Instance)) (tr : List Event)
    (h : ∀ x ∈ drivers, ∃ l, x.2.GetInstance = (Dyn.instance l, none)) :
    (GetInstance.loop i drivers all tr).trace
      = tr ++ (List.range' i drivers.length).map (fun j => (⟨j, .GetInstance⟩ : Event)) := by
  induction drivers generalizing i all tr with
  | nil => simp [GetInstance.loop]
  | cons x rest ih =>
    obtain ⟨name, d⟩ := x
    have ih2 := fun i all tr => ih i all tr (fun y hy => h y (List.mem_cons_of_mem _ hy))
    obtain ⟨l, hl⟩ := h (name, d) (List.mem_cons_self _ _)
    simp only at hl
    simp only [GetInstance.loop, hl]
    exact (ih2 _ _ _).trans (by simp [List.range'_succ])

theorem GetInstance_loop_trace_first_failure (pre : Registry)
    (e : String × Driver) (post : Registry) (i : Nat) (all : List (Option Instance))
    (tr : List Event)
    (hpre : ∀ x ∈ pre, ∃ l, x.2.GetInstance = (Dyn.instance l, none))
    (he : (e.2.GetInstance).2 ≠ none) :
    (GetInstance.loop i (pre ++ e :: post) all tr).trace
      = tr ++ (List.range' i (pre.length + 1)).map (fun j => (⟨j, .GetInstance⟩ : Event)) := by
  induction pre generalizing i all tr with
  | nil =>
    obtain ⟨name, d⟩ := e
    rcases hd : d.GetInstance with ⟨v, _ | err⟩
    · simp [hd] at he
    · simp [GetInstance.loop, hd, List.range'_succ]
  | cons x pre ih =>
    obtain ⟨name, d⟩ := x
    have ih2 := fun i all tr => ih i all tr (fun y hy => hpre y (List.mem_cons_of_mem _ hy))
    obtain ⟨l, hl⟩ := hpre (name, d) (List.mem_cons_self _ _)
    simp only at hl
    simp only [List.cons_append, GetInstance.loop, hl]
    exact (ih2 _ _ _).trans (by simp [List.range'_succ])

theorem GetInstance_loop_error_mem (drivers : Registry) (i : Nat)
    (all : List (Option Instance)) (tr : List Event) (r : List (Option Instance)) (err : GoError)
    (h : (GetInstance.loop i drivers all tr).outcome = .ok (r, some err)) :
    ∃ x ∈ drivers, (x.2.GetInstance).2 ≠ none := by
  induction drivers generalizing i all tr with
  | nil => simp [GetInstance.loop] at h
  | cons x rest ih =>
    obtain ⟨name, d⟩ := x
    rcases hd : d.GetInstance with ⟨v, _ | e⟩
    · have hrec : ∀ all2 tr2,
          (GetInstance.loop (i + 1) rest all2 tr2).outcome = .ok (r, some err) →
          ∃ x ∈ (name, d) :: rest, (x.2.GetInstance).2 ≠ none := by
        intro all2 tr2 h2
        obtain ⟨y, hy, hy2⟩ := ih (i + 1) all2 tr2 h2
        exact ⟨y, List.mem_cons_of_mem _ hy, hy2⟩
      cases v <;> simp only [GetInstance.loop, hd] at h <;> try (simp at h)
      exact hrec _ _ h
    · exact ⟨(name, d), List.mem_cons_self _ _, by simp [hd]⟩

theorem GetInstance_loop_success_flatten (drivers : Registry) (i : Nat)
    (all : List (Option Instance)) (tr : List Event) (r : List (Option Instance))
    (h : (GetInstance.loop i drivers all tr).outcome = .ok (r, none)) :
    r = all ++ (drivers.map (fun x => (x.2.GetInstance).1.instancesOf)).flatten := by
  induction drivers generalizing i all tr with
  | nil => simpa [GetInstance.loop] using h.symm
  | cons x rest ih =>
    obtain ⟨name, d⟩ := x
    rcases hd : d.GetInstance with ⟨v, _ | e⟩
    · cases v <;> simp only [GetInstance.loop, hd] at h <;> try (simp at h)
      rename_i l
      rw [ih _ _ _ h]
      simp [hd, Dyn.instancesOf]
    · simp [GetInstance.loop, hd] at h

theorem GetInstance_loop_returns (drivers : Registry) (i : Nat)
    (all : List (Option Instance)) (tr : List Event)
    (h : ∀ x ∈ drivers, (x.2.GetInstance).2 = none → ∃ l, (x.2.GetInstance).1 = Dyn.instance l) :
    ∃ res, (GetInstance.loop i drivers all tr).outcome = .ok res := by
  induction drivers generalizing i all tr with
  | nil => exact ⟨_, rfl⟩
  | cons x rest ih =>
    obtain ⟨name, d⟩ := x
    have ih2 := fun i all tr => ih i all tr (fun y hy => h y (List.mem_cons_of_mem _ hy))
    have hx := h (name, d) (List.mem_cons_self _ _)
    rcases hd : d.GetInstance with ⟨v, _ | e⟩
    · obtain ⟨l, hl⟩ := hx (by simp [hd])
      simp only [hd] at hl
      subst hl
      simp only [GetInstance.loop, hd]
      exact ih2 _ _ _
    · simp only [GetInstance.loop, hd]
      exact ⟨_, rfl⟩

theorem GetVolume_loop_trace_shape (volumeID : String) (drivers : Registry) (i : Nat)
    (all : List (Option Volume)) (tr : List Event) :
    ∃ k, k ≤ drivers.length ∧
      (GetVolume.loop volumeID i drivers all tr).trace
        = tr ++ (List.range' i k).map (fun j => (⟨j, .GetVolume volumeID⟩ : Event)) := by
  induction drivers generalizing i all tr with
  | nil => exact ⟨0, by simp [GetVolume.loop]⟩
  | cons x rest ih =>
    obtain ⟨name, d⟩ := x
    have step : ∀ all2, ∃ k, k ≤ ((name, d) :: rest).length ∧
        (GetVolume.loop volumeID (i + 1) rest all2 (tr ++ [⟨i, .GetVolume volumeID⟩])).trace
          = tr ++ (List.range' i k).map (fun j => (⟨j, .GetVolume volumeID⟩ : Event)) := by
      intro all2
      obtain ⟨k, hk, hk2⟩ := ih (i + 1) all2 (tr ++ [⟨i, .GetVolume volumeID⟩])
      exact ⟨k + 1, by simpa using hk, by simp [hk2, List.range'_succ]⟩
    have stop : ∃ k, k ≤ ((name, d) :: rest).length ∧
        tr ++ [(⟨i, .GetVolume volumeID⟩ : Event)]
          = tr ++ (List.range' i k).map (fun j => (⟨j, .GetVolume volumeID⟩ : Event)) :=
      ⟨1, by simp, by simp [List.range'_succ]⟩
    simp only [GetVolume.loop]
    split
    · exact stop
    · split
      · exact step _
      · exact step _
    · exact stop

theorem GetVolume_loop_trace_ok (volumeID : String) (drivers : Registry) (i : Nat)
    (all : List (Option Volume)) (tr : List Event)
    (h : ∀ x ∈ drivers, ∃ l, x.2.GetVolume volumeID = (Dyn.volumes l, none)) :
    (GetVolume.loop volumeID i drivers all tr).trace
      = tr ++ (List.range' i drivers.length).map (fun j => (⟨j, .GetVolume volumeID⟩ : Event)) := by
  induction drivers generalizing i all tr with
  | nil => simp [GetVolume.loop]
  | cons x rest ih =>
    obtain ⟨name, d⟩ := x
    have ih2 := fun i all tr => ih i all tr (fun y hy => h y (List.mem_cons_of_mem _ hy))
    obtain ⟨l, hl⟩ := h (name, d) (List.mem_cons_self _ _)
    simp only at hl
    simp only [GetVolume.loop, hl]
    split
    · exact (ih2 _ _ _).trans (by simp [List.range'_succ])
    · exact (ih2 _ _ _).trans (by simp [List.range'_succ])

theorem GetVolume_loop_trace_first_failure (volumeID : String) (pre : Registry)
    (e : String × Driver) (post : Registry) (i : Nat) (all : List (Option Volume))
    (tr : List Event)
    (hpre : ∀ x ∈ pre, ∃ l, x.2.GetVolume volumeID = (Dyn.volumes l, none))
    (he : (e.2.GetVolume volumeID).2 ≠ none) :
    (GetVolume.loop volumeID i (pre ++ e :: post) all tr).trace
      = tr ++ (List.range' i (pre.length + 1)).map (fun j => (⟨j, .GetVolume volumeID⟩ : Event)) := by
  induction pre generalizing i all tr with
  | nil =>
    obtain ⟨name, d⟩ := e
    rcases hd : d.GetVolume volumeID with ⟨v, _ | err⟩
    · simp [hd] at he
    · simp [GetVolume.loop, hd, List.range'_succ]
  | cons x pre ih =>
    obtain ⟨name, d⟩ := x
    have ih2 := fun i all tr => ih i all tr (fun y hy => hpre y (List.mem_cons_of_mem _ hy))
    obtain ⟨l, hl⟩ := hpre (name, d) (List.mem_cons_self _ _)
    simp only at hl
    simp only [List.cons_append, GetVolume.loop, hl]
    split
    · exact (ih2 _ _ _).trans (by simp [List.range'_succ])
    · exact (ih2 _ _ _).trans (by simp [List.range'_succ])

theorem GetVolume_loop_error_mem (volumeID : String) (drivers : Registry) (i : Nat)
    (all : List (Option Volume)) (tr : List Event) (r : List (Option Volume)) (err : GoError)
    (h : (GetVolume.loop volumeID i drivers all tr).outcome = .ok (r, some err)) :
    ∃ x ∈ drivers, (x.2.GetVolume volumeID).2 ≠ none := by
  induction drivers generalizing i all tr with
  | nil => simp [GetVolume.loop] at h
  | cons x rest ih =>
    obtain ⟨name, d⟩ := x
    rcases hd : d.GetVolume volumeID with ⟨v, _ | e⟩
    · have hrec : ∀ all2 tr2,
          (GetVolume.loop volumeID (i + 1) rest all2 tr2).outcome = .ok (r, some err) →
          ∃ x ∈ (name, d) :: rest, (x.2.GetVolume volumeID).2 ≠ none := by
        intro all2 tr2 h2
        obtain ⟨y, hy, hy2⟩ := ih (i + 1) all2 tr2 h2
        exact ⟨y, List.mem_cons_of_mem _ hy, hy2⟩
      cases v <;> simp only [GetVolume.loop, hd] at h <;> try (simp at h; done)
      split at h
      · exact hrec _ _ h
      · exact hrec _ _ h
    · exact ⟨(name, d), List.mem_cons_self _ _, by simp [hd]⟩

theorem GetVolume_loop_success_flatten (volumeID : String) (drivers : Registry) (i : Nat)
    (all : List (Option Volume)) (tr : List Event) (r : List (Option Volume))
    (h : (GetVolume.loop volumeID i drivers all tr).outcome = .ok (r, none)) :
    r = all ++ (drivers.map (fun x => (x.2.GetVolume volumeID).1.volumesOf)).flatten := by
  induction drivers generalizing i all tr with
  | nil => simpa [GetVolume.loop] using h.symm
  | cons x rest ih =>
    obtain ⟨name, d⟩ := x
    rcases hd : d.GetVolume volumeID with ⟨v, _ | e⟩
    · cases v <;> simp only [GetVolume.loop, hd] at h <;> try (simp at h; done)
      rename_i l
      split at h
      · rw [ih _ _ _ h, appendEach_eq]
        simp [hd, Dyn.volumesOf]
      · have hl : l = [] := by
          cases l with
          | nil => rfl
          | cons _ _ => simp at *
        rw [ih _ _ _ h]
        simp [hd, Dyn.volumesOf, hl]
    · simp [GetVolume.loop, hd] at h

theorem GetVolume_loop_returns (volumeID : String) (drivers : Registry) (i : Nat)
    (all : List (Option Volume)) (tr : List Event)
    (h : ∀ x ∈ drivers, (x.2.GetVolume volumeID).2 = none → ∃ l, (x.2.GetVolume volumeID).1 = Dyn.volumes l) :
    ∃ res, (GetVolume.loop volumeID i drivers all tr).outcome = .ok res := by
  induction drivers generalizing i all tr with
  | nil => exact ⟨_, rfl⟩
  | cons x rest ih =>
    obtain ⟨name, d⟩ := x
    have ih2 := fun i all tr => ih i all tr (fun y hy => h y (List.mem_cons_of_mem _ hy))
    have hx := h (name, d) (List.mem_cons_self _ _)
    rcases hd : d.GetVolume volumeID with ⟨v, _ | e⟩
    · obtain ⟨l, hl⟩ := hx (by simp [hd])
      simp only [hd] at hl
      subst hl
      simp only [GetVolume.loop, hd]
      split
      · exact ih2 _ _ _
      · exact ih2 _ _ _
    · simp only [GetVolume.loop, hd]
      exact ⟨_, rfl⟩

theorem GetSnapshot_loop_trace_shape (volumeID snapshotID : String) (drivers : Registry) (i : Nat)
    (all : List (Option Snapshot)) (tr : List Event) :
    ∃ k, k ≤ drivers.length ∧
      (GetSnapshot.loop volumeID snapshotID i drivers all tr).trace
        = tr ++ (List.range' i k).map (fun j => (⟨j, .GetSnapshot volumeID snapshotID⟩ : Event)) := by
  induction drivers generalizing i all tr with
  | nil => exact ⟨0, by simp [GetSnapshot.loop]⟩
  | cons x rest ih =>
    obtain ⟨name, d⟩ := x
    have step : ∀ all2, ∃ k, k ≤ ((name, d) :: rest).length ∧
        (GetSnapshot.loop volumeID snapshotID (i + 1) rest all2 (tr ++ [⟨i, .GetSnapshot volumeID snapshotID⟩])).trace
          = tr ++ (List.range' i k).map (fun j => (⟨j, .GetSnapshot volumeID snapshotID⟩ : Event)) := by
      intro all2
      obtain ⟨k, hk, hk2⟩ := ih (i + 1) all2 (tr ++ [⟨i, .GetSnapshot volumeID snapshotID⟩])
      exact ⟨k + 1, by simpa using hk, by simp [hk2, List.range'_succ]⟩
    have stop : ∃ k, k ≤ ((name, d) :: rest).length ∧
        tr ++ [(⟨i, .GetSnapshot volumeID snapshotID⟩ : Event)]
          = tr ++ (List.range' i k).map (fun j => (⟨j, .GetSnapshot volumeID snapshotID⟩ : Event)) :=
      ⟨1, by simp, by simp [List.range'_succ]⟩
    simp only [GetSnapshot.loop]
    split
    · exact stop
    · split
      · exact step _
      · exact step _
    · exact stop

theorem GetSnapshot_loop_trace_ok (volumeID snapshotID : String) (drivers : Registry) (i : Nat)
    (all : List (Option Snapshot)) (tr : List Event)
    (h : ∀ x ∈ drivers, ∃ l, x.2.GetSnapshot volumeID snapshotID = (Dyn.snapshots l, none)) :
    (GetSnapshot.loop volumeID snapshotID i drivers all tr).trace
      = tr ++ (List.range' i drivers.length).map (fun j => (⟨j, .GetSnapshot volumeID snapshotID⟩ : Event)) := by
  induction drivers generalizing i all tr with
  | nil => simp [GetSnapshot.loop]
  | cons x rest ih =>
    obtain ⟨name, d⟩ := x
    have ih2 := fun i all tr => ih i all tr (fun y hy => h y (List.mem_cons_of_mem _ hy))
    obtain ⟨l, hl⟩ := h (name, d) (List.mem_cons_self _ _)
    simp only at hl
    simp only [GetSnapshot.loop, hl]
    split
    · exact (ih2 _ _ _).trans (by simp [List.range'_succ])
    · exact (ih2 _ _ _).trans (by simp [List.range'_succ])

theorem GetSnapshot_loop_trace_first_failure (volumeID snapshotID : String) (pre : Registry)
    (e : String × Driver) (post : Registry) (i : Nat) (all : List (Option Snapshot))
    (tr : List Event)
    (hpre : ∀ x ∈ pre, ∃ l, x.2.GetSnapshot volumeID snapshotID = (Dyn.snapshots l, none))
    (he : (e.2.GetSnapshot volumeID snapshotID).2 ≠ none) :
    (GetSnapshot.loop volumeID snapshotID i (pre ++ e :: post) all tr).trace
      = tr ++ (List.range' i (pre.length + 1)).map (fun j => (⟨j, .GetSnapshot volumeID snapshotID⟩ : Event)) := by
  induction pre generalizing i all tr with
  | nil =>
    obtain ⟨name, d⟩ := e
    rcases hd : d.GetSnapshot volumeID snapshotID with ⟨v, _ | err⟩
    · simp [hd] at he
    · simp [GetSnapshot.loop, hd, List.range'_succ]
  | cons x pre ih =>
    obtain ⟨name, d⟩ := x
    have ih2 := fun i all tr => ih i all tr (fun y hy => hpre y (List.mem_cons_of_mem _ hy))
    obtain ⟨l, hl⟩ := hpre (name, d) (List.mem_cons_self _ _)
    simp only at hl
    simp only [List.cons_append, GetSnapshot.loop, hl]
    split
    · exact (ih2 _ _ _).trans (by simp [List.range'_succ])
    · exact (ih2 _ _ _).trans (by simp [List.range'_succ])

theorem GetSnapshot_loop_error_mem (volumeID snapshotID : String) (drivers : Registry) (i : Nat)
    (all : List (Option Snapshot)) (tr : List Event) (r : List (Option Snapshot)) (err : GoError)
    (h : (GetSnapshot.loop volumeID snapshotID i drivers all tr).outcome = .ok (r, some err)) :
    ∃ x ∈ drivers, (x.2.GetSnapshot volumeID snapshotID).2 ≠ none := by
  induction drivers generalizing i all tr with
  | nil => simp [GetSnapshot.loop] at h
  | cons x rest ih =>
    obtain ⟨name, d⟩ := x
    rcases hd : d.GetSnapshot volumeID snapshotID with ⟨v, _ | e⟩
    · have hrec : ∀ all2 tr2,
          (GetSnapshot.loop volumeID snapshotID (i + 1) rest all2 tr2).outcome = .ok (r, some err) →
          ∃ x ∈ (name, d) :: rest, (x.2.GetSnapshot volumeID snapshotID).2 ≠ none := by
        intro all2 tr2 h2
        obtain ⟨y, hy, hy2⟩ := ih (i + 1) all2 tr2 h2
        exact ⟨y, List.mem_cons_of_mem _ hy, hy2⟩
      cases v <;> simp only [GetSnapshot.loop, hd] at h <;> try (simp at h; done)
      split at h
      · exact hrec _ _ h
      · exact hrec _ _ h
    · exact ⟨(name, d), List.mem_cons_self _ _, by simp [hd]⟩

theorem GetSnapshot_loop_success_flatten (volumeID snapshotID : String) (drivers : Registry) (i : Nat)
    (all : List (Option Snapshot)) (tr : List Event) (r : List (Option Snapshot))
    (h : (GetSnapshot.loop volumeID snapshotID i drivers all tr).outcome = .ok (r, none)) :
    r = all ++ (drivers.map (fun x => (x.2.GetSnapshot volumeID snapshotID).1.snapshotsOf)).flatten := by
  induction drivers generalizing i all tr with
  | nil => simpa [GetSnapshot.loop] using h.symm
  | cons x rest ih =>
    obtain ⟨name, d⟩ := x
    rcases hd : d.GetSnapshot volumeID snapshotID with ⟨v, _ | e⟩
    · cases v <;> simp only [GetSnapshot.loop, hd] at h <;> try (simp at h; done)
      rename_i l
      split at h
      · rw [ih _ _ _ h, appendEach_eq]
        simp [hd, Dyn.snapshotsOf]
      · have hl : l = [] := by
          cases l with
          | nil => rfl
          | cons _ _ => simp at *
        rw [ih _ _ _ h]
        simp [hd, Dyn.snapshotsOf, hl]
    · simp [GetSnapshot.loop, hd] at h

theorem GetSnapshot_loop_returns (volumeID snapshotID : String) (drivers : Registry) (i : Nat)
    (all : List (Option Snapshot)) (tr : List Event)
    (h : ∀ x ∈ drivers, (x.2.GetSnapshot volumeID snapshotID).2 = none → ∃ l, (x.2.GetSnapshot volumeID snapshotID).1 = Dyn.snapshots l) :
    ∃ res, (GetSnapshot.loop volumeID snapshotID i drivers all tr).outcome = .ok res := by
  induction drivers generalizing i all tr with
  | nil => exact ⟨_, rfl⟩
  | cons x rest ih =>
    obtain ⟨name, d⟩ := x
    have ih2 := fun i all tr => ih i all tr (fun y hy => h y (List.mem_cons_of_mem _ hy))
    have hx := h (name, d) (List.mem_cons_self _ _)
    rcases hd : d.GetSnapshot volumeID snapshotID with ⟨v, _ | e⟩
    · obtain ⟨l, hl⟩ := hx (by simp [hd])
      simp only [hd] at hl
      subst hl
      simp only [GetSnapshot.loop, hd]
      split
      · exact ih2 _ _ _
      · exact ih2 _ _ _
    · simp only [GetSnapshot.loop, hd]
      exact ⟨_, rfl⟩

theorem GetInstance_loop_ok (i : Nat) (drivers : Registry)
    (ps : List (Option Instance)) (all : List (Option Instance)) (tr : List Event)
    (h : List.Forall₂ (fun e p => e.2.GetInstance = (Dyn.instance p, none)) drivers ps) :
    (GetInstance.loop i drivers all tr).outcome = .ok (all ++ ps, none) := by
  induction h generalizing i all tr with
  | nil => simp [GetInstance.loop]
  | @cons e p rest ps he _ ih =>
    obtain ⟨name, d⟩ := e
    simp only at he
    simp only [GetInstance.loop, he]
    rw [ih]; simp

theorem nodup_keys_of_range (call : Call) (i k : Nat) :
    (((List.range' i k).map (fun j => (⟨j, call⟩ : Event))).map Event.key).Nodup := by
  rw [List.map_map]
  refine List.Nodup.map ?_ (List.nodup_range' i k)
  intro a b hab
  simpa [Event.key] using hab

theorem RemoveSnapshot_loop_trace_short (snapshotID : String) (drivers : Registry)
    (h : ¬ drivers.length > 1) :
    ((RemoveSnapshot.loop snapshotID 0 drivers []).trace.map Event.key).Nodup := by
  rcases drivers with _ | ⟨x, _ | ⟨y, rest⟩⟩
  · simp [RemoveSnapshot.loop]
  · simp only [RemoveSnapshot.loop]
    split <;> simp
  · simp at h

theorem RemoveVolume_loop_trace_short (volumeID : String) (drivers : Registry)
    (h : ¬ drivers.length > 1) :
    ((RemoveVolume.loop volumeID 0 drivers []).trace.map Event.key).Nodup := by
  rcases drivers with _ | ⟨x, _ | ⟨y, rest⟩⟩
  · simp [RemoveVolume.loop]
  · simp only [RemoveVolume.loop]
    split <;> simp
  · simp at h

theorem AttachVolume_call_trace (d : Driver) (runAsync : Bool)
    (volumeID instanceID : String) (tr : List Event) :
    (AttachVolume.call d runAsync volumeID instanceID tr).trace
      = tr ++ [⟨0, .AttachVolume runAsync volumeID instanceID⟩] := by
  unfold AttachVolume.call
  split <;> rfl

theorem AttachVolume_call_outcome_congr (d : Driver) (r1 r2 : Bool)
    (volumeID instanceID : String) (tr1 tr2 : List Event)
    (h : d.AttachVolume r1 volumeID instanceID = d.AttachVolume r2 volumeID instanceID) :
    (AttachVolume.call d r1 volumeID instanceID tr1).outcome
      = (AttachVolume.call d r2 volumeID instanceID tr2).outcome := by
  unfold AttachVolume.call
  rw [h]
  split <;> rfl

theorem DetachVolume_call_trace (d : Driver) (runAsync : Bool)
    (volumeID instanceID : String) (tr : List Event) :
    (DetachVolume.call d runAsync volumeID instanceID tr).trace
      = tr ++ [⟨0, .DetachVolume runAsync volumeID instanceID⟩] := by
  unfold DetachVolume.call
  split <;> rfl

theorem DetachVolume_call_outcome_congr (d : Driver) (r1 r2 : Bool)
    (volumeID instanceID : String) (tr1 tr2 : List Event)
    (h : d.DetachVolume r1 volumeID instanceID = d.DetachVolume r2 volumeID instanceID) :
    (DetachVolume.call d r1 volumeID instanceID tr1).outcome
      = (DetachVolume.call d r2 volumeID instanceID tr2).outcome := by
  unfold DetachVolume.call
  rw [h]
  split <;> rfl

theorem RemoveSnapshot_loop_returns (snapshotID : String) (drivers : Registry) (i : Nat)
    (tr : List Event) :
    ∃ res, (RemoveSnapshot.loop snapshotID i drivers tr).outcome = .ok res := by
  induction drivers generalizing i tr with
  | nil => exact ⟨_, rfl⟩
  | cons x rest ih =>
    simp only [RemoveSnapshot.loop]
    split
    · exact ⟨_, rfl⟩
    · exact ih _ _

theorem RemoveVolume_loop_returns (volumeID : String) (drivers : Registry) (i : Nat)
    (tr : List Event) :
    ∃ res, (RemoveVolume.loop volumeID i drivers tr).outcome = .ok res := by
  induction drivers generalizing i tr with
  | nil => exact ⟨_, rfl⟩
  | cons x rest ih =>
    simp only [RemoveVolume.loop]
    split
    · exact ⟨_, rfl⟩
    · exact ih _ _

theorem AttachVolume_call_returns (d : Driver) (hwt : d.WellTyped) (runAsync : Bool)
    (volumeID instanceID : String) (tr : List Event) :
    ∃ res, (AttachVolume.call d runAsync volumeID instanceID tr).outcome = .ok res := by
  have hd := hwt.2.2.2.2.2.2 runAsync volumeID instanceID
  rcases ha : d.AttachVolume runAsync volumeID instanceID with ⟨v, _ | err⟩
  · obtain ⟨l, hl⟩ := hd (by simp [ha])
    simp only [ha] at hl
    subst hl
    exact ⟨(l, none), by simp [AttachVolume.call, ha]⟩
  · exact ⟨([], some err), by simp [AttachVolume.call, ha]⟩

theorem DetachVolume_call_returns (d : Driver) (runAsync : Bool)
    (volumeID instanceID : String) (tr : List Event) :
    ∃ res, (DetachVolume.call d runAsync volumeID instanceID tr).outcome = .ok res := by
  unfold DetachVolume.call
  split <;> exact ⟨_, rfl⟩

/-- Under the contract `Driver.WellTyped` on every driver of the registry, nine of
the ten operations return normally on every argument, and so does
`DetachVolume` when the instance identifier is non-empty or `GetInstance`
answers with a nil error. -/
theorem operations_return_under_contract (drivers : Registry)
    (hwt : ∀ x ∈ drivers, x.2.WellTyped) (runAsync : Bool)
    (volumeID snapshotID description volumeType instanceID : String) (IOPS size : Int) :
    (∃ res, (GetBlockDeviceMapping drivers).outcome = .ok res) ∧
    (∃ res, (GetInstance drivers).outcome = .ok res) ∧
    (∃ res, (GetVolume drivers volumeID).outcome = .ok res) ∧
    (∃ res, (GetSnapshot drivers volumeID snapshotID).outcome = .ok res) ∧
    (∃ res, (CreateSnapshot drivers runAsync volumeID description).outcome = .ok res) ∧
    (∃ res, (RemoveSnapshot drivers snapshotID).outcome = .ok res) ∧
    (∃ res, (CreateVolume drivers runAsync snapshotID volumeType IOPS size).outcome
      = .ok res) ∧
    (∃ res, (RemoveVolume drivers volumeID).outcome = .ok res) ∧
    (∃ res, (AttachVolume drivers runAsync volumeID instanceID).outcome = .ok res) ∧
    (instanceID ≠ "" ∨ (∀ x ∈ drivers, (x.2.GetInstance).2 = none) →
      ∃ res, (DetachVolume drivers runAsync volumeID instanceID).outcome = .ok res) := by
  refine ⟨?_, ?_, ?_, ?_, ?_, ?_, ?_, ?_, ?_, ?_⟩
  · exact GetBlockDeviceMapping_loop_returns drivers 0 [] [] (fun x hx => (hwt x hx).1)
  · refine GetInstance_loop_returns drivers 0 [] [] (fun x hx hn => ?_)
    obtain ⟨inst, hi⟩ := (hwt x hx).2.1 hn
    exact ⟨_, hi⟩
  · exact GetVolume_loop_returns volumeID drivers 0 [] [] (fun x hx => (hwt x hx).2.2.1 _)
  · exact GetSnapshot_loop_returns volumeID snapshotID drivers 0 [] []
      (fun x hx => (hwt x hx).2.2.2.1 _ _)
  · rcases drivers with _ | ⟨⟨n, d⟩, _ | ⟨y, rest⟩⟩
    · exact ⟨_, rfl⟩
    · have hd := (hwt (n, d) (List.mem_cons_self _ _)).2.2.2.2.1 runAsync volumeID description
      rcases ha : d.CreateSnapshot runAsync volumeID description with ⟨v, _ | err⟩
      · obtain ⟨l, hl⟩ := hd (by simp [ha])
        simp only [ha] at hl
        subst hl
        exact ⟨(l, none), by simp [CreateSnapshot, ha]⟩
      · exact ⟨([], some err), by simp [CreateSnapshot, ha]⟩
    · exact ⟨([], some ErrMultipleDriversDetected), by simp [CreateSnapshot]⟩
  · unfold RemoveSnapshot
    split
    · exact ⟨_, rfl⟩
    · exact RemoveSnapshot_loop_returns snapshotID drivers 0 []
  · rcases drivers with _ | ⟨⟨n, d⟩, _ | ⟨y, rest⟩⟩
    · exact ⟨_, rfl⟩
    · have hd := (hwt (n, d) (List.mem_cons_self _ _)).2.2.2.2.2.1 runAsync snapshotID
        volumeType IOPS size
      rcases ha : d.CreateVolume runAsync snapshotID volumeType IOPS size with ⟨v, _ | err⟩
      · obtain ⟨vol, hl⟩ := hd (by simp [ha])
        simp only [ha] at hl
        subst hl
        exact ⟨(some vol, none), by simp [CreateVolume, ha]⟩
      · exact ⟨(some Volume.zero, some err), by simp [CreateVolume, ha]⟩
    · exact ⟨(some Volume.zero, some ErrMultipleDriversDetected), by simp [CreateVolume]⟩
  · unfold RemoveVolume
    split
    · exact ⟨_, rfl⟩
    · exact RemoveVolume_loop_returns volumeID drivers 0 []
  · rcases drivers with _ | ⟨⟨n, d⟩, _ | ⟨y, rest⟩⟩
    · exact ⟨_, rfl⟩
    · have hw := hwt (n, d) (List.mem_cons_self _ _)
      by_cases hid : instanceID = ""
      · rcases hg : d.GetInstance with ⟨g, _ | ge⟩
        · obtain ⟨inst, hi⟩ := hw.2.1 (by simp [hg])
          simp only [hg] at hi
          subst hi
          simpa [AttachVolume, hid, hg] using
            AttachVolume_call_returns d hw runAsync volumeID inst.InstanceID _
        · exact ⟨([], some (Errorf ErrDriverInstanceDiscovery ge)),
            by simp [AttachVolume, hid, hg]⟩
      · simpa [AttachVolume, hid] using
          AttachVolume_call_returns d hw runAsync volumeID instanceID _
    · exact ⟨([], some ErrMultipleDriversDetected), by simp [AttachVolume]⟩
  · intro hor
    rcases drivers with _ | ⟨⟨n, d⟩, _ | ⟨y, rest⟩⟩
    · exact ⟨_, rfl⟩
    · have hw := hwt (n, d) (List.mem_cons_self _ _)
      by_cases hid : instanceID = ""
      · have hn : (d.GetInstance).2 = none := by
          rcases hor with h | h
          · exact absurd hid h
          · exact h (n, d) (List.mem_cons_self _ _)
        obtain ⟨inst, hi⟩ := hw.2.1 hn
        rcases hg : d.GetInstance with ⟨g, ge⟩
        simp only [hg] at hi hn
        subst hi
        subst hn
        simpa [DetachVolume, hid, hg] using
          DetachVolume_call_returns d runAsync volumeID inst.InstanceID _
      · simpa [DetachVolume, hid] using
          DetachVolume_call_returns d runAsync volumeID instanceID _
    · exact ⟨some ErrMultipleDriversDetected, by simp [DetachVolume]⟩

theorem GetBlockDeviceMapping_error_transfers (drivers drivers2 : Registry)
    (hsub : ∀ x ∈ drivers, x ∈ drivers2)
    (hwt : ∀ x ∈ drivers2, (x.2.GetBlockDeviceMapping).2 = none → ∃ l, (x.2.GetBlockDeviceMapping).1 = Dyn.blockDevices l)
    (h : ∃ r err, (GetBlockDeviceMapping drivers).outcome = .ok (r, some err)) :
    ∃ r err, (GetBlockDeviceMapping drivers2).outcome = .ok (r, some err) := by
  obtain ⟨r, err, hr⟩ := h
  obtain ⟨x, hx, hfail⟩ := GetBlockDeviceMapping_loop_error_mem drivers 0 [] [] r err hr
  obtain ⟨s, t, hst⟩ := List.append_of_mem (hsub x hx)
  have hpre : ∀ y ∈ s, (y.2.GetBlockDeviceMapping).2 = none → ∃ l, (y.2.GetBlockDeviceMapping).1 = Dyn.blockDevices l := by
    intro y hy
    exact hwt y (by rw [hst]; exact List.mem_append_left _ hy)
  obtain ⟨err2, h2⟩ := GetBlockDeviceMapping_loop_fails s x t 0 [] [] hpre hfail
  exact ⟨[], err2, by rw [hst]; exact h2⟩

theorem GetBlockDeviceMapping_success_perm (drivers drivers2 : Registry)
    (hperm : drivers.Perm drivers2) (r r2 : List (Option BlockDevice))
    (h : (GetBlockDeviceMapping drivers).outcome = .ok (r, none))
    (h2 : (GetBlockDeviceMapping drivers2).outcome = .ok (r2, none)) : r.Perm r2 := by
  have e := GetBlockDeviceMapping_loop_success_flatten drivers 0 [] [] r h
  have e2 := GetBlockDeviceMapping_loop_success_flatten drivers2 0 [] [] r2 h2
  rw [e, e2, List.nil_append, List.nil_append]
  exact (hperm.map _).flatten

theorem GetInstance_error_transfers (drivers drivers2 : Registry)
    (hsub : ∀ x ∈ drivers, x ∈ drivers2)
    (hwt : ∀ x ∈ drivers2, (x.2.GetInstance).2 = none → ∃ l, (x.2.GetInstance).1 = Dyn.instance l)
    (h : ∃ r err, (GetInstance drivers).outcome = .ok (r, some err)) :
    ∃ r err, (GetInstance drivers2).outcome = .ok (r, some err) := by
  obtain ⟨r, err, hr⟩ := h
  obtain ⟨x, hx, hfail⟩ := GetInstance_loop_error_mem drivers 0 [] [] r err hr
  obtain ⟨s, t, hst⟩ := List.append_of_mem (hsub x hx)
  have hpre : ∀ y ∈ s, (y.2.GetInstance).2 = none → ∃ l, (y.2.GetInstance).1 = Dyn.instance l := by
    intro y hy
    exact hwt y (by rw [hst]; exact List.mem_append_left _ hy)
  obtain ⟨err2, h2⟩ := GetInstance_loop_fails s x t 0 [] [] hpre hfail
  exact ⟨[], err2, by rw [hst]; exact h2⟩

theorem GetInstance_success_perm (drivers drivers2 : Registry)
    (hperm : drivers.Perm drivers2) (r r2 : List (Option Instance))
    (h : (GetInstance drivers).outcome = .ok (r, none))
    (h2 : (GetInstance drivers2).outcome = .ok (r2, none)) : r.Perm r2 := by
  have e := GetInstance_loop_success_flatten drivers 0 [] [] r h
  have e2 := GetInstance_loop_success_flatten drivers2 0 [] [] r2 h2
  rw [e, e2, List.nil_append, List.nil_append]
  exact (hperm.map _).flatten

theorem GetVolume_error_transfers (volumeID : String) (drivers drivers2 : Registry)
    (hsub : ∀ x ∈ drivers, x ∈ drivers2)
    (hwt : ∀ x ∈ drivers2, (x.2.GetVolume volumeID).2 = none → ∃ l, (x.2.GetVolume volumeID).1 = Dyn.volumes l)
    (h : ∃ r err, (GetVolume drivers volumeID).outcome = .ok (r, some err)) :
    ∃ r err, (GetVolume drivers2 volumeID).outcome = .ok (r, some err) := by
  obtain ⟨r, err, hr⟩ := h
  obtain ⟨x, hx, hfail⟩ := GetVolume_loop_error_mem volumeID drivers 0 [] [] r err hr
  obtain ⟨s, t, hst⟩ := List.append_of_mem (hsub x hx)
  have hpre : ∀ y ∈ s, (y.2.GetVolume volumeID).2 = none → ∃ l, (y.2.GetVolume volumeID).1 = Dyn.volumes l := by
    intro y hy
    exact hwt y (by rw [hst]; exact List.mem_append_left _ hy)
  obtain ⟨err2, h2⟩ := GetVolume_loop_fails volumeID s x t 0 [] [] hpre hfail
  exact ⟨[], err2, by rw [hst]; exact h2⟩

theorem GetVolume_success_perm (volumeID : String) (drivers drivers2 : Registry)
    (hperm : drivers.Perm drivers2) (r r2 : List (Option Volume))
    (h : (GetVolume drivers volumeID).outcome = .ok (r, none))
    (h2 : (GetVolume drivers2 volumeID).outcome = .ok (r2, none)) : r.Perm r2 := by
  have e := GetVolume_loop_success_flatten volumeID drivers 0 [] [] r h
  have e2 := GetVolume_loop_success_flatten volumeID drivers2 0 [] [] r2 h2
  rw [e, e2, List.nil_append, List.nil_append]
  exact (hperm.map _).flatten

theorem GetSnapshot_error_transfers (volumeID snapshotID : String) (drivers drivers2 : Registry)
    (hsub : ∀ x ∈ drivers, x ∈ drivers2)
    (hwt : ∀ x ∈ drivers2, (x.2.GetSnapshot volumeID snapshotID).2 = none → ∃ l, (x.2.GetSnapshot volumeID snapshotID).1 = Dyn.snapshots l)
    (h : ∃ r err, (GetSnapshot drivers volumeID snapshotID).outcome = .ok (r, some err)) :
    ∃ r err, (GetSnapshot drivers2 volumeID snapshotID).outcome = .ok (r, some err) := by
  obtain ⟨r, err, hr⟩ := h
  obtain ⟨x, hx, hfail⟩ := GetSnapshot_loop_error_mem volumeID snapshotID drivers 0 [] [] r err hr
  obtain ⟨s, t, hst⟩ := List.append_of_mem (hsub x hx)
  have hpre : ∀ y ∈ s, (y.2.GetSnapshot volumeID snapshotID).2 = none → ∃ l, (y.2.GetSnapshot volumeID snapshotID).1 = Dyn.snapshots l := by
    intro y hy
    exact hwt y (by rw [hst]; exact List.mem_append_left _ hy)
  obtain ⟨err2, h2⟩ := GetSnapshot_loop_fails volumeID snapshotID s x t 0 [] [] hpre hfail
  exact ⟨[], err2, by rw [hst]; exact h2⟩

theorem GetSnapshot_success_perm (volumeID snapshotID : String) (drivers drivers2 : Registry)
    (hperm : drivers.Perm drivers2) (r r2 : List (Option Snapshot))
    (h : (GetSnapshot drivers volumeID snapshotID).outcome = .ok (r, none))
    (h2 : (GetSnapshot drivers2 volumeID snapshotID).outcome = .ok (r2, none)) : r.Perm r2 := by
  have e := GetSnapshot_loop_success_flatten volumeID snapshotID drivers 0 [] [] r h
  have e2 := GetSnapshot_loop_success_flatten volumeID snapshotID drivers2 0 [] [] r2 h2
  rw [e, e2, List.nil_append, List.nil_append]
  exact (hperm.map _).flatten

/-! ## The claims -/

/-- C1: when every driver, in iteration order, answers the call with a sequence and
a nil error, each of `GetVolume`, `GetSnapshot` and `GetBlockDeviceMapping`
returns a nil error and the concatenation, in iteration order, of the
sequences the drivers returned; its length is the sum of their lengths. -/
theorem fanout_success_is_concatenation (drivers : Registry) (volumeID snapshotID : String) :
    (∀ vss : List (List (Option Volume)),
      List.Forall₂ (fun e vs => e.2.GetVolume volumeID = (Dyn.volumes vs, none)) drivers vss →
        (GetVolume drivers volumeID).outcome = .ok (vss.flatten, none)
          ∧ vss.flatten.length = (vss.map List.length).sum) ∧
    (∀ sss : List (List (Option Snapshot)),
      List.Forall₂
        (fun e ss => e.2.GetSnapshot volumeID snapshotID = (Dyn.snapshots ss, none))
        drivers sss →
        (GetSnapshot drivers volumeID snapshotID).outcome = .ok (sss.flatten, none)
          ∧ sss.flatten.length = (sss.map List.length).sum) ∧
    (∀ bss : List (List (Option BlockDevice)),
      List.Forall₂ (fun e bs => e.2.GetBlockDeviceMapping = (Dyn.blockDevices bs, none))
        drivers bss →
        (GetBlockDeviceMapping drivers).outcome = .ok (bss.flatten, none)
          ∧ bss.flatten.length = (bss.map List.length).sum) := by
  refine ⟨fun vss h => ⟨?_, List.length_flatten vss⟩,
    fun sss h => ⟨?_, List.length_flatten sss⟩,
    fun bss h => ⟨?_, List.length_flatten bss⟩⟩
  · simpa [GetVolume] using GetVolume_loop_ok volumeID 0 drivers vss [] [] h
  · simpa [GetSnapshot] using GetSnapshot_loop_ok volumeID snapshotID 0 drivers sss [] [] h
  · simpa [GetBlockDeviceMapping] using GetBlockDeviceMapping_loop_ok 0 drivers bss [] [] h

theorem fanout_success_is_concatenation_witness :
    (GetVolume [("ec2", sampleDriver), ("rackspace", otherDriver)] "").outcome
        = .ok ([some { VolumeID := "vol-1" }, some { VolumeID := "vol-2" },
                some { VolumeID := "vol-9" }], none)
      ∧ (GetSnapshot [("ec2", sampleDriver), ("rackspace", otherDriver)] "vol-1" "").outcome
        = .ok ([some { SnapshotID := "snap-1", VolumeID := "vol-1" },
                some { SnapshotID := "snap-8" }, some { SnapshotID := "snap-9" }], none)
      ∧ (GetBlockDeviceMapping [("ec2", sampleDriver), ("rackspace", otherDriver)]).outcome
        = .ok ([some { DeviceName := "/dev/xvda" }], none) :=
  have h := fanout_success_is_concatenation
    [("ec2", sampleDriver), ("rackspace", otherDriver)] "" ""
  have h2 := fanout_success_is_concatenation
    [("ec2", sampleDriver), ("rackspace", otherDriver)] "vol-1" ""
  ⟨(h.1 [[some { VolumeID := "vol-1" }, some { VolumeID := "vol-2" }],
          [some { VolumeID := "vol-9" }]]
      (.cons rfl (.cons rfl .nil))).1,
   (h2.2.1 [[some { SnapshotID := "snap-1", VolumeID := "vol-1" }],
            [some { SnapshotID := "snap-8" }, some { SnapshotID := "snap-9" }]]
      (.cons rfl (.cons rfl .nil))).1,
   (h.2.2 [[some { DeviceName := "/dev/xvda" }], []] (.cons rfl (.cons rfl .nil))).1⟩

/-- C2: in each of the four fan-out operations, when a driver of the registry
answers with an error, and every driver iterated before it either answers
with an error too or answers with a value of the type the dispatcher
asserts, the dispatcher returns a non-nil error and the empty sequence,
whatever the drivers before the failing one returned and whatever comes
after it. -/
theorem fanout_failure_all_or_nothing (pre : Registry) (e : String × Driver)
    (post : Registry) (volumeID snapshotID : String) :
    ((e.2.GetBlockDeviceMapping).2 ≠ none →
      (∀ x ∈ pre, (x.2.GetBlockDeviceMapping).2 = none →
        ∃ l, (x.2.GetBlockDeviceMapping).1 = Dyn.blockDevices l) →
      ∃ err, (GetBlockDeviceMapping (pre ++ e :: post)).outcome = .ok ([], some err)) ∧
    ((e.2.GetInstance).2 ≠ none →
      (∀ x ∈ pre, (x.2.GetInstance).2 = none →
        ∃ l, (x.2.GetInstance).1 = Dyn.instance l) →
      ∃ err, (GetInstance (pre ++ e :: post)).outcome = .ok ([], some err)) ∧
    ((e.2.GetVolume volumeID).2 ≠ none →
      (∀ x ∈ pre, (x.2.GetVolume volumeID).2 = none →
        ∃ l, (x.2.GetVolume volumeID).1 = Dyn.volumes l) →
      ∃ err, (GetVolume (pre ++ e :: post) volumeID).outcome = .ok ([], some err)) ∧
    ((e.2.GetSnapshot volumeID snapshotID).2 ≠ none →
      (∀ x ∈ pre, (x.2.GetSnapshot volumeID snapshotID).2 = none →
        ∃ l, (x.2.GetSnapshot volumeID snapshotID).1 = Dyn.snapshots l) →
      ∃ err, (GetSnapshot (pre ++ e :: post) volumeID snapshotID).outcome
        = .ok ([], some err)) :=
  ⟨fun he hpre => GetBlockDeviceMapping_loop_fails pre e post 0 [] [] hpre he,
   fun he hpre => GetInstance_loop_fails pre e post 0 [] [] hpre he,
   fun he hpre => GetVolume_loop_fails volumeID pre e post 0 [] [] hpre he,
   fun he hpre => GetSnapshot_loop_fails volumeID snapshotID pre e post 0 [] [] hpre he⟩

theorem fanout_failure_all_or_nothing_witness :
    (∃ err, (GetBlockDeviceMapping
        [("ec2", sampleDriver), ("rackspace", failingDriver), ("xtremio", otherDriver)]).outcome
        = .ok ([], some err)) ∧
    (∃ err, (GetInstance
        [("ec2", sampleDriver), ("rackspace", failingDriver), ("xtremio", otherDriver)]).outcome
        = .ok ([], some err)) ∧
    (∃ err, (GetVolume
        [("ec2", sampleDriver), ("rackspace", failingDriver), ("xtremio", otherDriver)]
        "vol-1").outcome = .ok ([], some err)) ∧
    (∃ err, (GetSnapshot
        [("ec2", sampleDriver), ("rackspace", failingDriver), ("xtremio", otherDriver)]
        "vol-1" "").outcome = .ok ([], some err)) :=
  have h := fanout_failure_all_or_nothing [("ec2", sampleDriver)] ("rackspace", failingDriver)
    [("xtremio", otherDriver)] "vol-1" ""
  ⟨h.1 (by decide) (by simp [sampleDriver]),
   h.2.1 (by decide) (by simp [sampleDriver]),
   h.2.2.1 (by decide) (by simp [sampleDriver]),
   h.2.2.2 (by decide) (by simp [sampleDriver])⟩

/-- C3: with two or more drivers in the registry, each of the six
single-driver-required operations returns the value `ErrMultipleDriversDetected`
itself with an empty result (for `CreateVolume` a pointer to the zero
`Volume`), and its call trace is empty: no method of any driver is invoked,
`GetInstance` included. -/
theorem multiple_drivers_rejected_without_calls (drivers : Registry)
    (h : 2 ≤ drivers.length) (runAsync : Bool)
    (volumeID snapshotID description volumeType instanceID : String) (IOPS size : Int) :
    CreateSnapshot drivers runAsync volumeID description
        = ⟨[], .ok ([], some ErrMultipleDriversDetected)⟩ ∧
    RemoveSnapshot drivers snapshotID = ⟨[], .ok (some ErrMultipleDriversDetected)⟩ ∧
    CreateVolume drivers runAsync snapshotID volumeType IOPS size
        = ⟨[], .ok (some Volume.zero, some ErrMultipleDriversDetected)⟩ ∧
    RemoveVolume drivers volumeID = ⟨[], .ok (some ErrMultipleDriversDetected)⟩ ∧
    AttachVolume drivers runAsync volumeID instanceID
        = ⟨[], .ok ([], some ErrMultipleDriversDetected)⟩ ∧
    DetachVolume drivers runAsync volumeID instanceID
        = ⟨[], .ok (some ErrMultipleDriversDetected)⟩ := by
  have h1 : drivers.length > 1 := h
  simp [CreateSnapshot, RemoveSnapshot, CreateVolume, RemoveVolume, AttachVolume,
    DetachVolume, h1]

theorem multiple_drivers_rejected_without_calls_witness :
    2 ≤ [("ec2", sampleDriver), ("rackspace", failingDriver)].length ∧
    (AttachVolume [("ec2", sampleDriver), ("rackspace", failingDriver)] true "vol-1" "").trace
        = [] ∧
    (AttachVolume [("ec2", sampleDriver), ("rackspace", failingDriver)] true "vol-1" "").outcome
        = .ok ([], some ErrMultipleDriversDetected) :=
  have h := multiple_drivers_rejected_without_calls
    [("ec2", sampleDriver), ("rackspace", failingDriver)] (by decide) true "vol-1" "snap-1"
    "nightly" "gp2" "" 100 8
  ⟨by decide, congrArg Run.trace h.2.2.2.2.1, congrArg Run.outcome h.2.2.2.2.1⟩

/-- C5: on the empty registry each of the six single-driver-required operations
returns a nil error and a zero result, the empty sequence for `CreateSnapshot`
and `AttachVolume`, a `Volume` all of whose fields are zero for `CreateVolume`,
nil for `RemoveSnapshot`, `RemoveVolume` and `DetachVolume`; the call trace
is empty. -/
theorem empty_registry_returns_zero_values (runAsync : Bool)
    (volumeID snapshotID description volumeType instanceID : String) (IOPS size : Int) :
    CreateSnapshot [] runAsync volumeID description = ⟨[], .ok ([], none)⟩ ∧
    RemoveSnapshot [] snapshotID = ⟨[], .ok none⟩ ∧
    CreateVolume [] runAsync snapshotID volumeType IOPS size
        = ⟨[], .ok (some Volume.zero, none)⟩ ∧
    Volume.zero = ⟨"", 0, 0, ""⟩ ∧
    RemoveVolume [] volumeID = ⟨[], .ok none⟩ ∧
    AttachVolume [] runAsync volumeID instanceID = ⟨[], .ok ([], none)⟩ ∧
    DetachVolume [] runAsync volumeID instanceID = ⟨[], .ok none⟩ := by
  simp [CreateSnapshot, RemoveSnapshot, RemoveSnapshot.loop, CreateVolume, RemoveVolume,
    RemoveVolume.loop, AttachVolume, DetachVolume, Volume.zero]

/-- C4: with exactly one driver in the registry, and a non-empty instance
identifier for `AttachVolume` and `DetachVolume`, each of the six
single-driver-required operations makes exactly one call, the corresponding
method of that driver with the arguments of the caller; when the driver
answers with a nil error and a value of the asserted type, that value is
returned with a nil error; when the driver answers with an error, that very
error value is returned with an empty or zero result. -/
theorem single_driver_result_or_error_verbatim (name : String) (d : Driver)
    (runAsync : Bool) (volumeID snapshotID description volumeType instanceID : String)
    (IOPS size : Int) (hid : instanceID ≠ "") :
    ((CreateSnapshot [(name, d)] runAsync volumeID description).trace
        = [⟨0, .CreateSnapshot runAsync volumeID description⟩] ∧
      (∀ ss, d.CreateSnapshot runAsync volumeID description = (Dyn.snapshots ss, none) →
        (CreateSnapshot [(name, d)] runAsync volumeID description).outcome = .ok (ss, none)) ∧
      (∀ v err, d.CreateSnapshot runAsync volumeID description = (v, some err) →
        (CreateSnapshot [(name, d)] runAsync volumeID description).outcome
          = .ok ([], some err))) ∧
    (RemoveSnapshot [(name, d)] snapshotID
        = ⟨[⟨0, .RemoveSnapshot snapshotID⟩], .ok (d.RemoveSnapshot snapshotID)⟩) ∧
    ((CreateVolume [(name, d)] runAsync snapshotID volumeType IOPS size).trace
        = [⟨0, .CreateVolume runAsync snapshotID volumeType IOPS size⟩] ∧
      (∀ p, d.CreateVolume runAsync snapshotID volumeType IOPS size = (Dyn.volume p, none) →
        (CreateVolume [(name, d)] runAsync snapshotID volumeType IOPS size).outcome
          = .ok (p, none)) ∧
      (∀ v err, d.CreateVolume runAsync snapshotID volumeType IOPS size = (v, some err) →
        (CreateVolume [(name, d)] runAsync snapshotID volumeType IOPS size).outcome
          = .ok (some Volume.zero, some err))) ∧
    (RemoveVolume [(name, d)] volumeID
        = ⟨[⟨0, .RemoveVolume volumeID⟩], .ok (d.RemoveVolume volumeID)⟩) ∧
    ((AttachVolume [(name, d)] runAsync volumeID instanceID).trace
        = [⟨0, .AttachVolume runAsync volumeID instanceID⟩] ∧
      (∀ as, d.AttachVolume runAsync volumeID instanceID = (Dyn.attachments as, none) →
        (AttachVolume [(name, d)] runAsync volumeID instanceID).outcome = .ok (as, none)) ∧
      (∀ v err, d.AttachVolume runAsync volumeID instanceID = (v, some err) →
        (AttachVolume [(name, d)] runAsync volumeID instanceID).outcome
          = .ok ([], some err))) ∧
    (DetachVolume [(name, d)] runAsync volumeID instanceID
        = ⟨[⟨0, .DetachVolume runAsync volumeID instanceID⟩],
            .ok (d.DetachVolume runAsync volumeID instanceID)⟩) := by
  refine ⟨⟨?_, ?_, ?_⟩, ?_, ⟨?_, ?_, ?_⟩, ?_, ⟨?_, ?_, ?_⟩, ?_⟩
  · simp only [CreateSnapshot, List.length_singleton, gt_iff_lt, lt_self_iff_false, if_false]
    split <;> rfl
  · intro ss h
    simp [CreateSnapshot, h]
  · intro v err h
    simp [CreateSnapshot, h]
  · simp only [RemoveSnapshot, RemoveSnapshot.loop, List.length_singleton, gt_iff_lt,
      lt_self_iff_false, if_false]
    cases d.RemoveSnapshot snapshotID <;> rfl
  · simp only [CreateVolume, List.length_singleton, gt_iff_lt, lt_self_iff_false, if_false]
    split <;> rfl
  · intro q h
    simp [CreateVolume, h]
  · intro v err h
    simp [CreateVolume, h]
  · simp only [RemoveVolume, RemoveVolume.loop, List.length_singleton, gt_iff_lt,
      lt_self_iff_false, if_false]
    cases d.RemoveVolume volumeID <;> rfl
  · simp only [AttachVolume, AttachVolume.call, List.length_singleton, gt_iff_lt,
      lt_self_iff_false, if_false, hid]
    split <;> rfl
  · intro as h
    simp [AttachVolume, AttachVolume.call, hid, h]
  · intro v err h
    simp [AttachVolume, AttachVolume.call, hid, h]
  · simp only [DetachVolume, DetachVolume.call, List.length_singleton, gt_iff_lt,
      lt_self_iff_false, if_false, hid]
    cases d.DetachVolume runAsync volumeID instanceID <;> rfl

theorem single_driver_result_or_error_verbatim_witness :
    ("i-42" : String) ≠ "" ∧
    (CreateVolume [("ec2", sampleDriver)] false "snap-1" "gp2" 100 8).outcome
        = .ok (some { VolumeID := "vol-3", Size := 8, IOPS := 100, VolumeType := "gp2" },
            none) ∧
    (AttachVolume [("ec2", sampleDriver)] false "vol-1" "i-42").trace
        = [⟨0, .AttachVolume false "vol-1" "i-42"⟩] ∧
    (AttachVolume [("ec2", failingDriver)] false "vol-1" "i-42").outcome
        = .ok ([], some backendDown) ∧
    (DetachVolume [("ec2", failingDriver)] false "vol-1" "i-42").outcome
        = .ok (some backendDown) :=
  have h := single_driver_result_or_error_verbatim "ec2" sampleDriver false "vol-1" "snap-1"
    "nightly" "gp2" "i-42" 100 8 (by decide)
  have hf := single_driver_result_or_error_verbatim "ec2" failingDriver false "vol-1" "snap-1"
    "nightly" "gp2" "i-42" 100 8 (by decide)
  ⟨by decide, h.2.2.1.2.1 _ rfl, h.2.2.2.2.1.1, hf.2.2.2.2.1.2.2 _ _ rfl,
    congrArg Run.outcome hf.2.2.2.2.2⟩

/-- C6: `DetachVolume` with an empty instance identifier on one driver whose
`GetInstance` fails, evaluated on the code. When the value that comes with
the error is the nil interface, the type assertion of line 197 panics after
the single call of `GetInstance`, and the driver's `DetachVolume` is never
invoked; when it is a non-nil instance, the driver's `DetachVolume` is
invoked with the identifier of that instance, not with the empty string. -/
theorem detach_after_failed_discovery_on_code :
    lostInstanceDriver.GetInstance = (Dyn.nil, some backendDown) ∧
    DetachVolume [("ec2", lostInstanceDriver)] true "vol-1" ""
        = ⟨[⟨0, .GetInstance⟩], .error .interfaceConversion⟩ ∧
    staleInstanceDriver.GetInstance
        = (Dyn.instance (some { InstanceID := "i-999" }), some backendDown) ∧
    DetachVolume [("ec2", staleInstanceDriver)] true "vol-1" ""
        = ⟨[⟨0, .GetInstance⟩, ⟨0, .DetachVolume true "vol-1" "i-999"⟩], .ok none⟩ :=
  ⟨rfl, rfl, rfl, rfl⟩

/-- C7: with exactly one driver whose `GetInstance` succeeds with an instance
carrying `InstanceID = id`, `AttachVolume` and `DetachVolume` called with an
empty instance identifier call `GetInstance` on that driver and then its
attach, respectively detach, method with the caller's `runAsync` and
`volumeID` and with `id` as instance identifier. -/
theorem empty_instance_id_resolved_by_GetInstance (name : String) (d : Driver)
    (inst : Instance) (id : String) (runAsync : Bool) (volumeID : String)
    (hget : d.GetInstance = (Dyn.instance (some inst), none))
    (hid : inst.InstanceID = id) :
    (AttachVolume [(name, d)] runAsync volumeID "").trace
        = [⟨0, .GetInstance⟩, ⟨0, .AttachVolume runAsync volumeID id⟩] ∧
    (DetachVolume [(name, d)] runAsync volumeID "").trace
        = [⟨0, .GetInstance⟩, ⟨0, .DetachVolume runAsync volumeID id⟩] := by
  subst hid
  constructor
  · simp only [AttachVolume, AttachVolume.call, List.length_singleton, gt_iff_lt,
      lt_self_iff_false, if_false, if_true, hget]
    split <;> rfl
  · simp only [DetachVolume, DetachVolume.call, List.length_singleton, gt_iff_lt,
      lt_self_iff_false, if_false, if_true, hget]
    split <;> rfl

theorem empty_instance_id_resolved_by_GetInstance_witness :
    sampleDriver.GetInstance = (Dyn.instance (some { InstanceID := "i-123" }), none) ∧
    (AttachVolume [("ec2", sampleDriver)] true "vol-1" "").trace
        = [⟨0, .GetInstance⟩, ⟨0, .AttachVolume true "vol-1" "i-123"⟩] ∧
    (DetachVolume [("ec2", sampleDriver)] true "vol-1" "").trace
        = [⟨0, .GetInstance⟩, ⟨0, .DetachVolume true "vol-1" "i-123"⟩] :=
  ⟨rfl, empty_instance_id_resolved_by_GetInstance "ec2" sampleDriver
    { InstanceID := "i-123" } "i-123" true "vol-1" rfl rfl⟩

/-- C8: with exactly one driver whose `GetInstance` fails with error `e`,
`AttachVolume` called with an empty instance identifier makes the single call
`GetInstance`, never the driver's `AttachVolume`, and returns the empty
sequence with a non-nil error whose message is
"Error: Driver Instance discovery failed: " followed by the message of `e`. -/
theorem attach_aborts_on_failed_discovery (name : String) (d : Driver) (v : Dyn)
    (e : GoError) (runAsync : Bool) (volumeID : String)
    (hget : d.GetInstance = (v, some e)) :
    ∃ err, AttachVolume [(name, d)] runAsync volumeID ""
        = ⟨[⟨0, .GetInstance⟩], .ok ([], some err)⟩ ∧
      err.Error = "Error: Driver Instance discovery failed: " ++ e.Error := by
  refine ⟨Errorf ErrDriverInstanceDiscovery e, ?_, rfl⟩
  simp [AttachVolume, hget]

theorem attach_aborts_on_failed_discovery_witness :
    lostInstanceDriver.GetInstance = (Dyn.nil, some backendDown) ∧
    ∃ err, AttachVolume [("ec2", lostInstanceDriver)] false "vol-1" ""
        = ⟨[⟨0, .GetInstance⟩], .ok ([], some err)⟩ ∧
      err.Error = "Error: Driver Instance discovery failed: " ++ backendDown.Error :=
  ⟨rfl, attach_aborts_on_failed_discovery "ec2" lostInstanceDriver Dyn.nil backendDown
    false "vol-1" rfl⟩

/-- C9: in each fan-out operation, when the drivers iterated before `e` all
answer successfully and `e` is the first to answer with an error `err`, the
error returned has as message "Error: ", the message of the discovery
sentinel of that operation, ": " and the message of `err`, whatever registry
entries come before and after. -/
theorem fanout_error_carries_first_failure (pre : Registry) (e : String × Driver)
    (post : Registry) (volumeID snapshotID : String) (v : Dyn) (err : GoError) :
    (e.2.GetBlockDeviceMapping = (v, some err) →
      (∀ x ∈ pre, ∃ l, x.2.GetBlockDeviceMapping = (Dyn.blockDevices l, none)) →
      ∃ r, (GetBlockDeviceMapping (pre ++ e :: post)).outcome = .ok ([], some r) ∧
        r.Error = "Error: " ++ ErrDriverBlockDeviceDiscovery.Error ++ ": " ++ err.Error) ∧
    (e.2.GetInstance = (v, some err) →
      (∀ x ∈ pre, ∃ l, x.2.GetInstance = (Dyn.instance l, none)) →
      ∃ r, (GetInstance (pre ++ e :: post)).outcome = .ok ([], some r) ∧
        r.Error = "Error: " ++ ErrDriverInstanceDiscovery.Error ++ ": " ++ err.Error) ∧
    (e.2.GetVolume volumeID = (v, some err) →
      (∀ x ∈ pre, ∃ l, x.2.GetVolume volumeID = (Dyn.volumes l, none)) →
      ∃ r, (GetVolume (pre ++ e :: post) volumeID).outcome = .ok ([], some r) ∧
        r.Error = "Error: " ++ ErrDriverVolumeDiscovery.Error ++ ": " ++ err.Error) ∧
    (e.2.GetSnapshot volumeID snapshotID = (v, some err) →
      (∀ x ∈ pre, ∃ l, x.2.GetSnapshot volumeID snapshotID = (Dyn.snapshots l, none)) →
      ∃ r, (GetSnapshot (pre ++ e :: post) volumeID snapshotID).outcome
          = .ok ([], some r) ∧
        r.Error = "Error: " ++ ErrDriverSnapshotDiscovery.Error ++ ": " ++ err.Error) :=
  ⟨fun he hpre => ⟨_, GetBlockDeviceMapping_loop_first_failure pre e post 0 [] [] v err hpre he,
      rfl⟩,
   fun he hpre => ⟨_, GetInstance_loop_first_failure pre e post 0 [] [] v err hpre he, rfl⟩,
   fun he hpre => ⟨_, GetVolume_loop_first_failure volumeID pre e post 0 [] [] v err hpre he,
      rfl⟩,
   fun he hpre => ⟨_, GetSnapshot_loop_first_failure volumeID snapshotID pre e post 0 [] [] v
      err hpre he, rfl⟩⟩

theorem fanout_error_carries_first_failure_witness :
    (∃ r, (GetVolume
        [("ec2", sampleDriver), ("rackspace", failingDriver), ("xtremio", failingDriver)]
        "vol-1").outcome = .ok ([], some r) ∧
      r.Error = "Error: Driver Volume discovery failed: backend unreachable") ∧
    (∃ r, (GetInstance
        [("ec2", sampleDriver), ("rackspace", failingDriver), ("xtremio", failingDriver)]).outcome
        = .ok ([], some r) ∧
      r.Error = "Error: Driver Instance discovery failed: backend unreachable") :=
  have h := fanout_error_carries_first_failure [("ec2", sampleDriver)]
    ("rackspace", failingDriver) [("xtremio", failingDriver)] "vol-1" "" Dyn.nil backendDown
  ⟨h.2.2.1 rfl (by simp [sampleDriver]), h.2.1 rfl (by simp [sampleDriver])⟩

/-- C10: `init` ends the process with `log.Fatalf` exactly when the map that
`storagedriver.GetDrivers` returned is empty, whatever error came with it; a
non-empty map becomes the registry as it is; so the registry with which
`init` leaves the package is never empty. -/
theorem init_fatal_iff_no_drivers (host : Host) (drivers : Registry) (err : Option GoError)
    (hget : host.GetDrivers (host.ToLower (host.Getenv "REXRAY_STORAGEDRIVERS"))
      = (drivers, err)) :
    ((∃ message, (init host).outcome = .fatal message) ↔ drivers = []) ∧
    (drivers ≠ [] →
      (init host).outcome = .ready (host.ToUpper (host.Getenv "REXRAY_DEBUG"))
        (host.ToLower (host.Getenv "REXRAY_STORAGEDRIVERS")) drivers) ∧
    (∀ debug storageDrivers registry,
      (init host).outcome = .ready debug storageDrivers registry → registry ≠ []) := by
  cases drivers with
  | nil => simp [init, hget]
  | cons x rest => simp [init, hget]

theorem init_fatal_iff_no_drivers_witness :
    sampleHost.GetDrivers (sampleHost.ToLower (sampleHost.Getenv "REXRAY_STORAGEDRIVERS"))
        = ([("ec2", sampleDriver)], some backendDown) ∧
    (¬ ∃ message, (init sampleHost).outcome = .fatal message) ∧
    bareHost.GetDrivers (bareHost.ToLower (bareHost.Getenv "REXRAY_STORAGEDRIVERS"))
        = ([], none) ∧
    (∃ message, (init bareHost).outcome = .fatal message) :=
  have h := init_fatal_iff_no_drivers sampleHost [("ec2", sampleDriver)] (some backendDown) rfl
  have hb := init_fatal_iff_no_drivers bareHost [] none rfl
  ⟨rfl, fun hf => absurd (h.1.mp hf) (by simp), rfl, hb.1.mpr rfl⟩

/-- C11: with exactly one driver, the driver's `CreateSnapshot`, `CreateVolume`,
`AttachVolume` or `DetachVolume` is called, and the value of `runAsync` it
receives is the one the caller gave: the call trace is spelled out for each
operation (for `AttachVolume` and `DetachVolume` according to whether the
instance identifier is empty and to what `GetInstance` answers). With the
other arguments fixed, the calls made for one value of `runAsync` are, in the
same order, the calls made for any other value with only the flag replaced;
and the result is selected from the driver's answer in the same way: where
the driver answers alike for the two values, the dispatcher returns alike. -/
theorem runAsync_is_passed_through (name : String) (d : Driver) (runAsync other : Bool)
    (volumeID snapshotID description volumeType instanceID : String) (IOPS size : Int) :
    ((CreateSnapshot [(name, d)] runAsync volumeID description).trace
        = [⟨0, .CreateSnapshot runAsync volumeID description⟩] ∧
      (∀ ev ∈ (CreateSnapshot [(name, d)] runAsync volumeID description).trace,
        ∀ b, ev.call.asyncFlag = some b → b = runAsync) ∧
      (CreateSnapshot [(name, d)] other volumeID description).trace
        = (CreateSnapshot [(name, d)] runAsync volumeID description).trace.map
            (Event.setAsync other) ∧
      (d.CreateSnapshot other volumeID description
          = d.CreateSnapshot runAsync volumeID description →
        (CreateSnapshot [(name, d)] other volumeID description).outcome
          = (CreateSnapshot [(name, d)] runAsync volumeID description).outcome)) ∧
    ((CreateVolume [(name, d)] runAsync snapshotID volumeType IOPS size).trace
        = [⟨0, .CreateVolume runAsync snapshotID volumeType IOPS size⟩] ∧
      (∀ ev ∈ (CreateVolume [(name, d)] runAsync snapshotID volumeType IOPS size).trace,
        ∀ b, ev.call.asyncFlag = some b → b = runAsync) ∧
      (CreateVolume [(name, d)] other snapshotID volumeType IOPS size).trace
        = (CreateVolume [(name, d)] runAsync snapshotID volumeType IOPS size).trace.map
            (Event.setAsync other) ∧
      (d.CreateVolume other snapshotID volumeType IOPS size
          = d.CreateVolume runAsync snapshotID volumeType IOPS size →
        (CreateVolume [(name, d)] other snapshotID volumeType IOPS size).outcome
          = (CreateVolume [(name, d)] runAsync snapshotID volumeType IOPS size).outcome)) ∧
    (((instanceID ≠ "" →
          (AttachVolume [(name, d)] runAsync volumeID instanceID).trace
            = [⟨0, .AttachVolume runAsync volumeID instanceID⟩]) ∧
        (instanceID = "" → ∀ inst, d.GetInstance = (Dyn.instance (some inst), none) →
          (AttachVolume [(name, d)] runAsync volumeID instanceID).trace
            = [⟨0, .GetInstance⟩, ⟨0, .AttachVolume runAsync volumeID inst.InstanceID⟩]) ∧
        (instanceID = "" → (∀ inst, d.GetInstance ≠ (Dyn.instance (some inst), none)) →
          (AttachVolume [(name, d)] runAsync volumeID instanceID).trace
            = [⟨0, .GetInstance⟩])) ∧
      (∀ ev ∈ (AttachVolume [(name, d)] runAsync volumeID instanceID).trace,
        ∀ b, ev.call.asyncFlag = some b → b = runAsync) ∧
      (AttachVolume [(name, d)] other volumeID instanceID).trace
        = (AttachVolume [(name, d)] runAsync volumeID instanceID).trace.map
            (Event.setAsync other) ∧
      ((∀ id, d.AttachVolume other volumeID id = d.AttachVolume runAsync volumeID id) →
        (AttachVolume [(name, d)] other volumeID instanceID).outcome
          = (AttachVolume [(name, d)] runAsync volumeID instanceID).outcome)) ∧
    (((instanceID ≠ "" →
          (DetachVolume [(name, d)] runAsync volumeID instanceID).trace
            = [⟨0, .DetachVolume runAsync volumeID instanceID⟩]) ∧
        (instanceID = "" → ∀ inst err, d.GetInstance = (Dyn.instance (some inst), err) →
          (DetachVolume [(name, d)] runAsync volumeID instanceID).trace
            = [⟨0, .GetInstance⟩, ⟨0, .DetachVolume runAsync volumeID inst.InstanceID⟩]) ∧
        (instanceID = "" → (∀ inst err, d.GetInstance ≠ (Dyn.instance (some inst), err)) →
          (DetachVolume [(name, d)] runAsync volumeID instanceID).trace
            = [⟨0, .GetInstance⟩])) ∧
      (∀ ev ∈ (DetachVolume [(name, d)] runAsync volumeID instanceID).trace,
        ∀ b, ev.call.asyncFlag = some b → b = runAsync) ∧
      (DetachVolume [(name, d)] other volumeID instanceID).trace
        = (DetachVolume [(name, d)] runAsync volumeID instanceID).trace.map
            (Event.setAsync other) ∧
      ((∀ id, d.DetachVolume other volumeID id = d.DetachVolume runAsync volumeID id) →
        (DetachVolume [(name, d)] other volumeID instanceID).outcome
          = (DetachVolume [(name, d)] runAsync volumeID instanceID).outcome)) := by
  have hcs : ∀ r, (CreateSnapshot [(name, d)] r volumeID description).trace
      = [⟨0, .CreateSnapshot r volumeID description⟩] := by
    intro r
    simp only [CreateSnapshot, List.length_singleton, gt_iff_lt, lt_self_iff_false, if_false]
    split <;> rfl
  have hcv : ∀ r, (CreateVolume [(name, d)] r snapshotID volumeType IOPS size).trace
      = [⟨0, .CreateVolume r snapshotID volumeType IOPS size⟩] := by
    intro r
    simp only [CreateVolume, List.length_singleton, gt_iff_lt, lt_self_iff_false, if_false]
    split <;> rfl
  refine ⟨⟨hcs runAsync, ?_, ?_, ?_⟩, ⟨hcv runAsync, ?_, ?_, ?_⟩,
    ⟨⟨?_, ?_, ?_⟩, ?_, ?_, ?_⟩, ⟨⟨?_, ?_, ?_⟩, ?_, ?_, ?_⟩⟩
  · simp [hcs, Call.asyncFlag]
  · simp [hcs, Event.setAsync, Call.setAsync]
  · intro h
    rcases hd : d.CreateSnapshot runAsync volumeID description with ⟨v, _ | err⟩ <;>
      cases v <;> simp [CreateSnapshot, h, hd]
  · simp [hcv, Call.asyncFlag]
  · simp [hcv, Event.setAsync, Call.setAsync]
  · intro h
    rcases hd : d.CreateVolume runAsync snapshotID volumeType IOPS size with ⟨v, _ | err⟩ <;>
      cases v <;> simp [CreateVolume, h, hd]
  · intro hid
    simp [AttachVolume, hid, AttachVolume_call_trace]
  · intro hid inst hg
    simp [AttachVolume, hid, hg, AttachVolume_call_trace]
  · intro hid hno
    rcases hg : d.GetInstance with ⟨g, _ | ge⟩
    · rcases g with _ | _ | ⟨_ | inst⟩ | _ | _ | _ | _ | _ <;>
        first
        | exact absurd hg (hno _)
        | simp [AttachVolume, hid, hg]
    · simp [AttachVolume, hid, hg]
  · by_cases hid : instanceID = ""
    · rcases hg : d.GetInstance with ⟨g, _ | ge⟩
      · rcases g with _ | _ | ⟨_ | inst⟩ | _ | _ | _ | _ | _ <;>
          simp [AttachVolume, hid, hg, AttachVolume_call_trace, Call.asyncFlag]
      · simp [AttachVolume, hid, hg, Call.asyncFlag]
    · simp [AttachVolume, hid, AttachVolume_call_trace, Call.asyncFlag]
  · by_cases hid : instanceID = ""
    · rcases hg : d.GetInstance with ⟨g, _ | ge⟩
      · rcases g with _ | _ | ⟨_ | inst⟩ | _ | _ | _ | _ | _ <;>
          simp [AttachVolume, hid, hg, AttachVolume_call_trace, Event.setAsync, Call.setAsync]
      · simp [AttachVolume, hid, hg, Event.setAsync, Call.setAsync]
    · simp [AttachVolume, hid, AttachVolume_call_trace, Event.setAsync, Call.setAsync]
  · intro h
    by_cases hid : instanceID = ""
    · rcases hg : d.GetInstance with ⟨g, _ | ge⟩
      · rcases g with _ | _ | ⟨_ | inst⟩ | _ | _ | _ | _ | _ <;>
          simp [AttachVolume, hid, hg]
        exact AttachVolume_call_outcome_congr d _ _ _ _ _ _ (h _)
      · simp [AttachVolume, hid, hg]
    · simp only [AttachVolume, List.length_singleton, gt_iff_lt, lt_self_iff_false, if_false,
        hid]
      exact AttachVolume_call_outcome_congr d _ _ _ _ _ _ (h _)
  · intro hid
    simp [DetachVolume, hid, DetachVolume_call_trace]
  · intro hid inst err hg
    simp [DetachVolume, hid, hg, DetachVolume_call_trace]
  · intro hid hno
    rcases hg : d.GetInstance with ⟨g, ge⟩
    rcases g with _ | _ | ⟨_ | inst⟩ | _ | _ | _ | _ | _ <;>
      first
      | exact absurd hg (hno _ _)
      | simp [DetachVolume, hid, hg]
  · by_cases hid : instanceID = ""
    · rcases hg : d.GetInstance with ⟨g, _ | ge⟩ <;>
        rcases g with _ | _ | ⟨_ | inst⟩ | _ | _ | _ | _ | _ <;>
          simp [DetachVolume, hid, hg, DetachVolume_call_trace, Call.asyncFlag]
    · simp [DetachVolume, hid, DetachVolume_call_trace, Call.asyncFlag]
  · by_cases hid : instanceID = ""
    · rcases hg : d.GetInstance with ⟨g, _ | ge⟩ <;>
        rcases g with _ | _ | ⟨_ | inst⟩ | _ | _ | _ | _ | _ <;>
          simp [DetachVolume, hid, hg, DetachVolume_call_trace, Event.setAsync, Call.setAsync]
    · simp [DetachVolume, hid, DetachVolume_call_trace, Event.setAsync, Call.setAsync]
  · intro h
    by_cases hid : instanceID = ""
    · rcases hg : d.GetInstance with ⟨g, _ | ge⟩ <;>
        rcases g with _ | _ | ⟨_ | inst⟩ | _ | _ | _ | _ | _ <;>
          simp [DetachVolume, hid, hg] <;>
          exact DetachVolume_call_outcome_congr d _ _ _ _ _ _ (h _)
    · simp only [DetachVolume, List.length_singleton, gt_iff_lt, lt_self_iff_false, if_false,
        hid]
      exact DetachVolume_call_outcome_congr d _ _ _ _ _ _ (h _)

theorem runAsync_is_passed_through_witness :
    (CreateSnapshot [("ec2", sampleDriver)] true "vol-1" "nightly").trace
        = [⟨0, .CreateSnapshot true "vol-1" "nightly"⟩] ∧
    (CreateVolume [("ec2", sampleDriver)] true "snap-1" "gp2" 100 8).trace
        = [⟨0, .CreateVolume true "snap-1" "gp2" 100 8⟩] ∧
    (AttachVolume [("ec2", sampleDriver)] true "vol-1" "").trace
        = [⟨0, .GetInstance⟩, ⟨0, .AttachVolume true "vol-1" "i-123"⟩] ∧
    (DetachVolume [("ec2", sampleDriver)] true "vol-1" "").trace
        = [⟨0, .GetInstance⟩, ⟨0, .DetachVolume true "vol-1" "i-123"⟩] ∧
    (CreateSnapshot [("ec2", sampleDriver)] false "vol-1" "nightly").trace
        = (CreateSnapshot [("ec2", sampleDriver)] true "vol-1" "nightly").trace.map
            (Event.setAsync false) ∧
    (AttachVolume [("ec2", sampleDriver)] false "vol-1" "").outcome
        = (AttachVolume [("ec2", sampleDriver)] true "vol-1" "").outcome ∧
    (∀ ev ∈ (DetachVolume [("ec2", sampleDriver)] true "vol-1" "").trace,
      ∀ b, ev.call.asyncFlag = some b → b = true) :=
  have h := runAsync_is_passed_through "ec2" sampleDriver true false "vol-1" "snap-1"
    "nightly" "gp2" "" 100 8
  ⟨h.1.1, h.2.1.1, h.2.2.1.1.2.1 rfl { InstanceID := "i-123" } rfl,
    h.2.2.2.1.2.1 rfl { InstanceID := "i-123" } none rfl,
    h.1.2.2.1, h.2.2.1.2.2.2 (fun _ => rfl), h.2.2.2.2.1⟩

/-- C12: when every driver, in iteration order, answers `GetInstance` with an
instance and a nil error, the dispatcher's `GetInstance` returns a nil error
and the sequence of those instances, one per driver and in iteration order:
its length is the number of drivers. -/
theorem GetInstance_one_instance_per_driver (drivers : Registry)
    (ps : List (Option Instance))
    (h : List.Forall₂ (fun e p => e.2.GetInstance = (Dyn.instance p, none)) drivers ps) :
    (GetInstance drivers).outcome = .ok (ps, none) ∧ ps.length = drivers.length ∧
      ∀ i (h1 : i < drivers.length) (h2 : i < ps.length),
        (drivers.get ⟨i, h1⟩).2.GetInstance = (Dyn.instance (ps.get ⟨i, h2⟩), none) := by
  refine ⟨?_, h.length_eq.symm, ?_⟩
  · simpa [GetInstance] using GetInstance_loop_ok 0 drivers ps [] [] h
  · intro i h1 h2
    exact (List.forall₂_iff_get.mp h).2 i h1 h2

theorem GetInstance_one_instance_per_driver_witness :
    (GetInstance [("ec2", sampleDriver), ("rackspace", otherDriver)]).outcome
      = .ok ([some { InstanceID := "i-123" }, some { InstanceID := "host-7" }], none) :=
  (GetInstance_one_instance_per_driver [("ec2", sampleDriver), ("rackspace", otherDriver)]
    [some { InstanceID := "i-123" }, some { InstanceID := "host-7" }]
    (.cons rfl (.cons rfl .nil))).1

/-- C13: in one call of any of the ten dispatcher operations, on every registry
and whatever the drivers answer, no method of any driver is called twice:
the pairs (position of the driver, name of the method) of the call trace
are pairwise distinct. -/
theorem no_driver_method_called_twice (drivers : Registry) (runAsync : Bool)
    (volumeID snapshotID description volumeType instanceID : String) (IOPS size : Int) :
    ((GetBlockDeviceMapping drivers).trace.map Event.key).Nodup ∧
    ((GetInstance drivers).trace.map Event.key).Nodup ∧
    ((GetVolume drivers volumeID).trace.map Event.key).Nodup ∧
    ((GetSnapshot drivers volumeID snapshotID).trace.map Event.key).Nodup ∧
    ((CreateSnapshot drivers runAsync volumeID description).trace.map Event.key).Nodup ∧
    ((RemoveSnapshot drivers snapshotID).trace.map Event.key).Nodup ∧
    ((CreateVolume drivers runAsync snapshotID volumeType IOPS size).trace.map
      Event.key).Nodup ∧
    ((RemoveVolume drivers volumeID).trace.map Event.key).Nodup ∧
    ((AttachVolume drivers runAsync volumeID instanceID).trace.map Event.key).Nodup ∧
    ((DetachVolume drivers runAsync volumeID instanceID).trace.map Event.key).Nodup := by
  refine ⟨?_, ?_, ?_, ?_, ?_, ?_, ?_, ?_, ?_, ?_⟩
  · obtain ⟨k, _, hk⟩ := GetBlockDeviceMapping_loop_trace_shape drivers 0 [] []
    rw [GetBlockDeviceMapping, hk, List.nil_append]
    exact nodup_keys_of_range _ 0 k
  · obtain ⟨k, _, hk⟩ := GetInstance_loop_trace_shape drivers 0 [] []
    rw [GetInstance, hk, List.nil_append]
    exact nodup_keys_of_range _ 0 k
  · obtain ⟨k, _, hk⟩ := GetVolume_loop_trace_shape volumeID drivers 0 [] []
    rw [GetVolume, hk, List.nil_append]
    exact nodup_keys_of_range _ 0 k
  · obtain ⟨k, _, hk⟩ := GetSnapshot_loop_trace_shape volumeID snapshotID drivers 0 [] []
    rw [GetSnapshot, hk, List.nil_append]
    exact nodup_keys_of_range _ 0 k
  · unfold CreateSnapshot
    split
    · simp
    · split
      · simp
      · split <;> simp
  · unfold RemoveSnapshot
    split
    · simp
    · exact RemoveSnapshot_loop_trace_short snapshotID drivers (by assumption)
  · unfold CreateVolume
    split
    · simp
    · split
      · simp
      · split <;> simp
  · unfold RemoveVolume
    split
    · simp
    · exact RemoveVolume_loop_trace_short volumeID drivers (by assumption)
  · unfold AttachVolume AttachVolume.call
    split
    · simp
    · split
      · simp
      · split
        · split <;> (try split) <;> simp [Event.key, Call.method]
        · split <;> simp
  · unfold DetachVolume DetachVolume.call
    split
    · simp
    · split
      · simp
      · split
        · split <;> (try split) <;> simp [Event.key, Call.method]
        · split <;> simp

/-- C14: a fan-out operation stops at the first failure. When the drivers before
`e` all answer successfully and `e` answers with an error, the drivers called
are exactly those at positions `0` to `pre.length`, each once and in that
order, and none after; when every driver answers successfully, the drivers
called are all those of the registry, each once and in order. -/
theorem fanout_calls_up_to_first_failure (pre : Registry) (e : String × Driver)
    (post drivers : Registry) (volumeID snapshotID : String) :
    (((∀ x ∈ pre, ∃ l, x.2.GetBlockDeviceMapping = (Dyn.blockDevices l, none)) →
        (e.2.GetBlockDeviceMapping).2 ≠ none →
        (GetBlockDeviceMapping (pre ++ e :: post)).trace
          = (List.range (pre.length + 1)).map (fun j => ⟨j, .GetBlockDeviceMapping⟩)) ∧
      ((∀ x ∈ drivers, ∃ l, x.2.GetBlockDeviceMapping = (Dyn.blockDevices l, none)) →
        (GetBlockDeviceMapping drivers).trace
          = (List.range drivers.length).map (fun j => ⟨j, .GetBlockDeviceMapping⟩))) ∧
    (((∀ x ∈ pre, ∃ l, x.2.GetInstance = (Dyn.instance l, none)) →
        (e.2.GetInstance).2 ≠ none →
        (GetInstance (pre ++ e :: post)).trace
          = (List.range (pre.length + 1)).map (fun j => ⟨j, .GetInstance⟩)) ∧
      ((∀ x ∈ drivers, ∃ l, x.2.GetInstance = (Dyn.instance l, none)) →
        (GetInstance drivers).trace
          = (List.range drivers.length).map (fun j => ⟨j, .GetInstance⟩))) ∧
    (((∀ x ∈ pre, ∃ l, x.2.GetVolume volumeID = (Dyn.volumes l, none)) →
        (e.2.GetVolume volumeID).2 ≠ none →
        (GetVolume (pre ++ e :: post) volumeID).trace
          = (List.range (pre.length + 1)).map (fun j => ⟨j, .GetVolume volumeID⟩)) ∧
      ((∀ x ∈ drivers, ∃ l, x.2.GetVolume volumeID = (Dyn.volumes l, none)) →
        (GetVolume drivers volumeID).trace
          = (List.range drivers.length).map (fun j => ⟨j, .GetVolume volumeID⟩))) ∧
    (((∀ x ∈ pre, ∃ l, x.2.GetSnapshot volumeID snapshotID = (Dyn.snapshots l, none)) →
        (e.2.GetSnapshot volumeID snapshotID).2 ≠ none →
        (GetSnapshot (pre ++ e :: post) volumeID snapshotID).trace
          = (List.range (pre.length + 1)).map
              (fun j => ⟨j, .GetSnapshot volumeID snapshotID⟩)) ∧
      ((∀ x ∈ drivers, ∃ l, x.2.GetSnapshot volumeID snapshotID = (Dyn.snapshots l, none)) →
        (GetSnapshot drivers volumeID snapshotID).trace
          = (List.range drivers.length).map
              (fun j => ⟨j, .GetSnapshot volumeID snapshotID⟩))) := by
  refine ⟨⟨fun hpre he => ?_, fun h => ?_⟩, ⟨fun hpre he => ?_, fun h => ?_⟩,
    ⟨fun hpre he => ?_, fun h => ?_⟩, ⟨fun hpre he => ?_, fun h => ?_⟩⟩
  · simpa [GetBlockDeviceMapping, List.range_eq_range'] using
      GetBlockDeviceMapping_loop_trace_first_failure pre e post 0 [] [] hpre he
  · simpa [GetBlockDeviceMapping, List.range_eq_range'] using
      GetBlockDeviceMapping_loop_trace_ok drivers 0 [] [] h
  · simpa [GetInstance, List.range_eq_range'] using
      GetInstance_loop_trace_first_failure pre e post 0 [] [] hpre he
  · simpa [GetInstance, List.range_eq_range'] using
      GetInstance_loop_trace_ok drivers 0 [] [] h
  · simpa [GetVolume, List.range_eq_range'] using
      GetVolume_loop_trace_first_failure volumeID pre e post 0 [] [] hpre he
  · simpa [GetVolume, List.range_eq_range'] using
      GetVolume_loop_trace_ok volumeID drivers 0 [] [] h
  · simpa [GetSnapshot, List.range_eq_range'] using
      GetSnapshot_loop_trace_first_failure volumeID snapshotID pre e post 0 [] [] hpre he
  · simpa [GetSnapshot, List.range_eq_range'] using
      GetSnapshot_loop_trace_ok volumeID snapshotID drivers 0 [] [] h

theorem fanout_calls_up_to_first_failure_witness :
    (GetVolume [("ec2", sampleDriver), ("rackspace", failingDriver), ("xtremio", otherDriver)]
        "vol-1").trace = [⟨0, .GetVolume "vol-1"⟩, ⟨1, .GetVolume "vol-1"⟩] ∧
    (GetVolume [("ec2", sampleDriver), ("xtremio", otherDriver)] "vol-1").trace
        = [⟨0, .GetVolume "vol-1"⟩, ⟨1, .GetVolume "vol-1"⟩] ∧
    (GetInstance [("rackspace", failingDriver), ("ec2", sampleDriver)]).trace
        = [⟨0, .GetInstance⟩] :=
  have h := fanout_calls_up_to_first_failure [("ec2", sampleDriver)]
    ("rackspace", failingDriver) [("xtremio", otherDriver)]
    [("ec2", sampleDriver), ("xtremio", otherDriver)] "vol-1" ""
  have h0 := fanout_calls_up_to_first_failure [] ("rackspace", failingDriver)
    [("ec2", sampleDriver)] [] "vol-1" ""
  ⟨h.2.2.1.1 (by simp [sampleDriver]) (by decide),
   h.2.2.1.2 (by simp [sampleDriver, otherDriver]),
   h0.2.1.1 (by simp) (by decide)⟩

/-- C15: with exactly one driver, `AttachVolume` and `DetachVolume` called with a
non-empty instance identifier make a single call, the attach or detach
method of the driver with the caller's arguments unchanged; `GetInstance` is
not called, and the whole run is the same whatever `GetInstance` of that
driver would answer. -/
theorem nonempty_instance_id_skips_GetInstance (name : String) (d : Driver)
    (runAsync : Bool) (volumeID instanceID : String) (hid : instanceID ≠ "") :
    (AttachVolume [(name, d)] runAsync volumeID instanceID).trace
        = [⟨0, .AttachVolume runAsync volumeID instanceID⟩] ∧
    (DetachVolume [(name, d)] runAsync volumeID instanceID).trace
        = [⟨0, .DetachVolume runAsync volumeID instanceID⟩] ∧
    (∀ g : Dyn × Option GoError,
      AttachVolume [(name, { d with GetInstance := g })] runAsync volumeID instanceID
        = AttachVolume [(name, d)] runAsync volumeID instanceID) ∧
    (∀ g : Dyn × Option GoError,
      DetachVolume [(name, { d with GetInstance := g })] runAsync volumeID instanceID
        = DetachVolume [(name, d)] runAsync volumeID instanceID) := by
  refine ⟨?_, ?_, ?_, ?_⟩
  · simp only [AttachVolume, AttachVolume.call, List.length_singleton, gt_iff_lt,
      lt_self_iff_false, if_false, hid]
    split <;> rfl
  · simp only [DetachVolume, DetachVolume.call, List.length_singleton, gt_iff_lt,
      lt_self_iff_false, if_false, hid]
    split <;> rfl
  · intro g
    simp [AttachVolume, AttachVolume.call, hid]
  · intro g
    simp [DetachVolume, DetachVolume.call, hid]

theorem nonempty_instance_id_skips_GetInstance_witness :
    ("i-42" : String) ≠ "" ∧
    (AttachVolume [("ec2", lostInstanceDriver)] true "vol-1" "i-42").trace
        = [⟨0, .AttachVolume true "vol-1" "i-42"⟩] ∧
    (DetachVolume [("ec2", lostInstanceDriver)] true "vol-1" "i-42").trace
        = [⟨0, .DetachVolume true "vol-1" "i-42"⟩] :=
  have h := nonempty_instance_id_skips_GetInstance "ec2" lostInstanceDriver true "vol-1"
    "i-42" (by decide)
  ⟨by decide, h.1, h.2.1⟩

/-- C16, amended: the outcome of a fan-out operation does not depend on the order
in which the registry is iterated, up to reordering, on registries whose
drivers answer with a value of the asserted type whenever they answer with a
nil error. For such a registry and any permutation of it, the operation
returns an error on one ordering exactly when it returns an error on the
other; and, on every registry, when both orderings return without error the
two results are permutations of each other, hence of the same length. -/
theorem fanout_outcome_independent_of_order (drivers drivers2 : Registry)
    (hperm : drivers.Perm drivers2) (volumeID snapshotID : String) :
    (((∀ x ∈ drivers, (x.2.GetBlockDeviceMapping).2 = none → ∃ l, (x.2.GetBlockDeviceMapping).1 = Dyn.blockDevices l) →
        ((∃ r err, (GetBlockDeviceMapping drivers).outcome = .ok (r, some err)) ↔
          (∃ r err, (GetBlockDeviceMapping drivers2).outcome = .ok (r, some err)))) ∧
      (∀ r r2, (GetBlockDeviceMapping drivers).outcome = .ok (r, none) →
        (GetBlockDeviceMapping drivers2).outcome = .ok (r2, none) →
        r.Perm r2 ∧ r.length = r2.length)) ∧
    (((∀ x ∈ drivers, (x.2.GetInstance).2 = none → ∃ l, (x.2.GetInstance).1 = Dyn.instance l) →
        ((∃ r err, (GetInstance drivers).outcome = .ok (r, some err)) ↔
          (∃ r err, (GetInstance drivers2).outcome = .ok (r, some err)))) ∧
      (∀ r r2, (GetInstance drivers).outcome = .ok (r, none) →
        (GetInstance drivers2).outcome = .ok (r2, none) →
        r.Perm r2 ∧ r.length = r2.length)) ∧
    (((∀ x ∈ drivers, (x.2.GetVolume volumeID).2 = none → ∃ l, (x.2.GetVolume volumeID).1 = Dyn.volumes l) →
        ((∃ r err, (GetVolume drivers volumeID).outcome = .ok (r, some err)) ↔
          (∃ r err, (GetVolume drivers2 volumeID).outcome = .ok (r, some err)))) ∧
      (∀ r r2, (GetVolume drivers volumeID).outcome = .ok (r, none) →
        (GetVolume drivers2 volumeID).outcome = .ok (r2, none) →
        r.Perm r2 ∧ r.length = r2.length)) ∧
    (((∀ x ∈ drivers, (x.2.GetSnapshot volumeID snapshotID).2 = none → ∃ l, (x.2.GetSnapshot volumeID snapshotID).1 = Dyn.snapshots l) →
        ((∃ r err, (GetSnapshot drivers volumeID snapshotID).outcome = .ok (r, some err)) ↔
          (∃ r err, (GetSnapshot drivers2 volumeID snapshotID).outcome = .ok (r, some err)))) ∧
      (∀ r r2, (GetSnapshot drivers volumeID snapshotID).outcome = .ok (r, none) →
        (GetSnapshot drivers2 volumeID snapshotID).outcome = .ok (r2, none) →
        r.Perm r2 ∧ r.length = r2.length)) := by
  have hsub : ∀ x ∈ drivers, x ∈ drivers2 := fun x hx => (hperm.mem_iff).mp hx
  have hsub2 : ∀ x ∈ drivers2, x ∈ drivers := fun x hx => (hperm.mem_iff).mpr hx
  refine ⟨⟨fun hwt => ⟨?_, ?_⟩, fun r r2 h h2 => ?_⟩, ⟨fun hwt => ⟨?_, ?_⟩, fun r r2 h h2 => ?_⟩,
    ⟨fun hwt => ⟨?_, ?_⟩, fun r r2 h h2 => ?_⟩, ⟨fun hwt => ⟨?_, ?_⟩, fun r r2 h h2 => ?_⟩⟩
  · exact GetBlockDeviceMapping_error_transfers drivers drivers2 hsub
      (fun x hx => hwt x (hsub2 x hx))
  · exact GetBlockDeviceMapping_error_transfers drivers2 drivers hsub2 hwt
  · have hp := GetBlockDeviceMapping_success_perm drivers drivers2 hperm r r2 h h2
    exact ⟨hp, hp.length_eq⟩
  · exact GetInstance_error_transfers drivers drivers2 hsub
      (fun x hx => hwt x (hsub2 x hx))
  · exact GetInstance_error_transfers drivers2 drivers hsub2 hwt
  · have hp := GetInstance_success_perm drivers drivers2 hperm r r2 h h2
    exact ⟨hp, hp.length_eq⟩
  · exact GetVolume_error_transfers volumeID drivers drivers2 hsub
      (fun x hx => hwt x (hsub2 x hx))
  · exact GetVolume_error_transfers volumeID drivers2 drivers hsub2 hwt
  · have hp := GetVolume_success_perm volumeID drivers drivers2 hperm r r2 h h2
    exact ⟨hp, hp.length_eq⟩
  · exact GetSnapshot_error_transfers volumeID snapshotID drivers drivers2 hsub
      (fun x hx => hwt x (hsub2 x hx))
  · exact GetSnapshot_error_transfers volumeID snapshotID drivers2 drivers hsub2 hwt
  · have hp := GetSnapshot_success_perm volumeID snapshotID drivers drivers2 hperm r r2 h h2
    exact ⟨hp, hp.length_eq⟩

theorem fanout_outcome_independent_of_order_witness :
    List.Perm [("ec2", sampleDriver), ("rackspace", otherDriver)]
        [("rackspace", otherDriver), ("ec2", sampleDriver)] ∧
    List.Perm
        [some ({ VolumeID := "vol-1" } : Volume), some { VolumeID := "vol-2" },
          some { VolumeID := "vol-9" }]
        [some { VolumeID := "vol-9" }, some { VolumeID := "vol-1" },
          some { VolumeID := "vol-2" }] ∧
    ((∃ r err, (GetInstance [("ec2", sampleDriver), ("rackspace", failingDriver)]).outcome
        = .ok (r, some err)) ↔
      (∃ r err, (GetInstance [("rackspace", failingDriver), ("ec2", sampleDriver)]).outcome
        = .ok (r, some err))) :=
  have hp : List.Perm [("ec2", sampleDriver), ("rackspace", otherDriver)]
      [("rackspace", otherDriver), ("ec2", sampleDriver)] := List.Perm.swap _ _ _
  have hq : List.Perm [("ec2", sampleDriver), ("rackspace", failingDriver)]
      [("rackspace", failingDriver), ("ec2", sampleDriver)] := List.Perm.swap _ _ _
  have h := fanout_outcome_independent_of_order _ _ hp "vol-1" ""
  have hf := fanout_outcome_independent_of_order _ _ hq "vol-1" ""
  ⟨hp, (h.2.2.1.2 _ _ rfl rfl).1, hf.2.1.1 (by simp [sampleDriver, failingDriver])⟩

/-- C16 as stated, for every registry, fails: with a driver that answers
`GetVolume` by `nil, nil` iterated before a failing driver the type
assertion panics and no error is returned, while in the other order the
failing driver is reached first and the discovery error is returned. -/
theorem fanout_outcome_depends_on_order_when_ill_typed :
    List.Perm [("ec2", illTypedDriver), ("rackspace", failingDriver)]
        [("rackspace", failingDriver), ("ec2", illTypedDriver)] ∧
    (GetVolume [("ec2", illTypedDriver), ("rackspace", failingDriver)] "vol-1").outcome
        = .error .interfaceConversion ∧
    (GetVolume [("rackspace", failingDriver), ("ec2", illTypedDriver)] "vol-1").outcome
        = .ok ([], some (Errorf ErrDriverVolumeDiscovery backendDown)) ∧
    ¬ ((∃ r err,
          (GetVolume [("ec2", illTypedDriver), ("rackspace", failingDriver)] "vol-1").outcome
            = .ok (r, some err)) ↔
        (∃ r err,
          (GetVolume [("rackspace", failingDriver), ("ec2", illTypedDriver)] "vol-1").outcome
            = .ok (r, some err))) := by
  refine ⟨List.Perm.swap _ _ _, rfl, rfl, fun h => ?_⟩
  obtain ⟨r, err, hr⟩ := h.mpr ⟨[], _, rfl⟩
  have h1 : (GetVolume [("ec2", illTypedDriver), ("rackspace", failingDriver)]
      "vol-1").outcome = .error .interfaceConversion := rfl
  rw [h1] at hr
  cases hr

/-- C17: the contract holds of the driver `lostInstanceDriver`, whose
`GetInstance` gives nil with its error, and yet `DetachVolume` with an empty
instance identifier does not return normally on it: the type assertion of
line 197 fails on the nil value. -/
theorem detach_panics_under_contract :
    lostInstanceDriver.WellTyped ∧
    (∀ x ∈ [("ec2", lostInstanceDriver)], x.2.WellTyped) ∧
    (DetachVolume [("ec2", lostInstanceDriver)] false "vol-1" "").outcome
      = .error .interfaceConversion := by
  have h : lostInstanceDriver.WellTyped := by
    simp [Driver.WellTyped, lostInstanceDriver, sampleDriver]
  exact ⟨h, by simpa using h, rfl⟩

end Rexray
